import Mathlib

/-
Verification development for the streaming connection admission gateway
(src/src/streaming/stream-receiver-connection.c).

The pipeline `stream_receiver_accept_connection` is embedded as a pure
function over an explicit environment.  External collaborators (key policy
store, host registry, sockets, clocks, locks) are modelled as oracle fields
of the environment; repository code that lives outside src/ (handshake
string literals, capability conversion, receiver attach/detach) is modelled
from the spec, with a doc comment saying so on each such definition.
-/

namespace NetdataStreamReceiver

-- ------------------------------------------------------------------
-- HTTP response codes used by the accept path (web server layer).

def HTTP_RESP_OK : Nat := 200

def HTTP_RESP_UNAUTHORIZED : Nat := 401

def HTTP_RESP_CONFLICT : Nat := 409

def HTTP_RESP_SERVICE_UNAVAILABLE : Nat := 503

-- ------------------------------------------------------------------
-- Wire literals and status tags.  Modelled from the spec: the literal
-- strings live in stream-handshake.h which is not under src/; the claims
-- only need them to be fixed and distinct, so symbolic values are used.

def START_STREAMING_PROMPT_V1 : String := "STREAM_PROMPT_V1"

def START_STREAMING_PROMPT_V2 : String := "STREAM_PROMPT_V2"

def START_STREAMING_PROMPT_VN : String := "STREAM_PROMPT_VN "

def START_STREAMING_ERROR_SAME_LOCALHOST : String := "ERROR_SAME_LOCALHOST"

def START_STREAMING_ERROR_ALREADY_STREAMING : String := "ERROR_ALREADY_STREAMING"

def START_STREAMING_ERROR_NOT_PERMITTED : String := "ERROR_NOT_PERMITTED"

def START_STREAMING_ERROR_BUSY_TRY_LATER : String := "ERROR_BUSY_TRY_LATER"

def START_STREAMING_ERROR_INTERNAL_ERROR : String := "ERROR_INTERNAL_ERROR"

def START_STREAMING_ERROR_INITIALIZATION : String := "ERROR_INITIALIZATION"

def STREAM_STATUS_NO_API_KEY : String := "STATUS_NO_API_KEY"

def STREAM_STATUS_NO_HOSTNAME : String := "STATUS_NO_HOSTNAME"

def STREAM_STATUS_NO_MACHINE_GUID : String := "STATUS_NO_MACHINE_GUID"

def STREAM_STATUS_INVALID_API_KEY : String := "STATUS_INVALID_API_KEY"

def STREAM_STATUS_INVALID_MACHINE_GUID : String := "STATUS_INVALID_MACHINE_GUID"

def STREAM_STATUS_API_KEY_DISABLED : String := "STATUS_API_KEY_DISABLED"

def STREAM_STATUS_MACHINE_GUID_DISABLED : String := "STATUS_MACHINE_GUID_DISABLED"

def STREAM_STATUS_NOT_ALLOWED_IP : String := "STATUS_NOT_ALLOWED_IP"

def STREAM_STATUS_LOCALHOST : String := "STATUS_LOCALHOST"

def STREAM_STATUS_RATE_LIMIT : String := "STATUS_RATE_LIMIT"

def STREAM_STATUS_ALREADY_CONNECTED : String := "STATUS_ALREADY_CONNECTED"

def STREAM_STATUS_INTERNAL_SERVER_ERROR : String := "STATUS_INTERNAL_SERVER_ERROR"

def STREAM_STATUS_INITIALIZATION_IN_PROGRESS : String := "STATUS_INITIALIZATION_IN_PROGRESS"

def STREAM_STATUS_DUPLICATE_RECEIVER : String := "STATUS_DUPLICATE_RECEIVER"

def STREAM_STATUS_CANT_REPLY : String := "STATUS_CANT_REPLY"

def STREAM_STATUS_CONNECTED : String := "STATUS_CONNECTED"

-- ------------------------------------------------------------------
-- Capability bits.  Modelled from the spec: STREAM_CAPABILITIES is defined
-- in stream-capabilities.h which is not under src/.  The source only uses
-- the INVALID sentinel bit and the four tier bits, so only those are kept.

def STREAM_CAP_INVALID : Nat := 1

def STREAM_CAP_V1 : Nat := 2

def STREAM_CAP_V2 : Nat := 4

def STREAM_CAP_VN : Nat := 8

def STREAM_CAP_VCAPS : Nat := 16

/-- Modelled from the spec: `convert_stream_version_to_capabilities`
(stream-capabilities.c, not under src/) maps a requested version to a
capability bitset through a monotonic table: higher requested version gives
a superset, capped at the newest tier; versions 0 and 1 both give the
oldest tier (the spec routes the legacy NETDATA_PROTOCOL_VERSION field,
which the source converts with argument 1, to the oldest supported
version).  None of the results contain the INVALID sentinel bit. -/
def convert_stream_version_to_capabilities (version : Nat) : Nat :=
  if version ≤ 1 then STREAM_CAP_V1
  else if version = 2 then STREAM_CAP_V1 ||| STREAM_CAP_V2
  else if version ≤ 4 then STREAM_CAP_V1 ||| STREAM_CAP_V2 ||| STREAM_CAP_VN
  else STREAM_CAP_V1 ||| STREAM_CAP_V2 ||| STREAM_CAP_VN ||| STREAM_CAP_VCAPS

/-- Modelled from the spec: `stream_capabilities_to_vn`
(stream-capabilities.c, not under src/) maps a capability set back to a
numeric protocol version for the VN handshake reply. -/
def stream_capabilities_to_vn (caps : Nat) : Nat :=
  if caps &&& STREAM_CAP_VN ≠ 0 then 4
  else if caps &&& STREAM_CAP_V2 ≠ 0 then 2
  else 1

/-- Leading decimal digits of a character list, accumulated left to right;
parsing stops at the first non-digit, as strtoul does. -/
def decDigits : List Char → Nat → Nat
  | [], acc => acc
  | c :: rest, acc => if c.isDigit then decDigits rest (acc * 10 + (c.toNat - 48)) else acc

/-- Modelled: libc `strtoul` with base 0, restricted to the plain decimal
numbers this gateway receives (hex and octal prefixes are not modelled;
non-numeric input gives 0, as strtoul does). -/
def strtoul0 (s : String) : Nat := decDigits s.data 0

/-- Modelled: libc `strtol` with base 0 for plain decimal numbers with an
optional leading minus sign. -/
def strtol0 (s : String) : Int :=
  match s.data with
  | '-' :: rest => - Int.ofNat (decDigits rest 0)
  | l => Int.ofNat (decDigits l 0)

-- ------------------------------------------------------------------
-- Receiver descriptor (struct receiver_state), restricted to the fields
-- the accept path reads or writes.

structure SystemInfo where
  hops : Int
  ml_capable : Nat
  ml_enabled : Nat
  mc_version : Nat
  vars : List (String × String)
deriving DecidableEq, Repr

structure ReceiverState where
  key : Option String
  hostname : Option String
  registry_hostname : Option String
  machine_guid : Option String
  os : Option String
  timezone : Option String
  abbrev_timezone : Option String
  utc_offset : Int
  hops : Int
  config_update_every : Int
  capabilities : Nat
  connected_since_s : Int
  last_msg_t : Int
  system_info : SystemInfo
deriving DecidableEq, Repr

def default_rrd_update_every : Int := 1

/-- The receiver descriptor as initialized by lines 280-303 of the source
(callocz gives zero/none fields; hops starts at 1; capabilities start at
the INVALID sentinel; timestamps are taken from the clocks). -/
def initial_receiver_state (now_realtime now_monotonic : Int) : ReceiverState :=
  { key := none, hostname := none, registry_hostname := none, machine_guid := none,
    os := none, timezone := none, abbrev_timezone := none,
    utc_offset := 0, hops := 1, config_update_every := default_rrd_update_every,
    capabilities := STREAM_CAP_INVALID,
    connected_since_s := now_realtime, last_msg_t := now_monotonic,
    system_info := { hops := 1, ml_capable := 0, ml_enabled := 0, mc_version := 0, vars := [] } }

/-- Modelled from the spec: `rrdhost_set_system_info_variable` (outside
src/) stores a name/value pair into the free-form SystemInfo bag. -/
def rrdhost_set_system_info_variable (si : SystemInfo) (name value : String) : SystemInfo :=
  { si with vars := si.vars ++ [(name, value)] }

-- Single-field updates of the descriptor, named so that proof goals about
-- the parsing loop stay small.  Each corresponds to one assignment in the
-- source's parsing loop.

def withKey (r : ReceiverState) (v : String) : ReceiverState := { r with key := some v }

def withHostname (r : ReceiverState) (v : String) : ReceiverState := { r with hostname := some v }

def withRegistryHostname (r : ReceiverState) (v : String) : ReceiverState :=
  { r with registry_hostname := some v }

def withMachineGuid (r : ReceiverState) (v : String) : ReceiverState :=
  { r with machine_guid := some v }

def withUpdateEvery (r : ReceiverState) (v : String) : ReceiverState :=
  { r with config_update_every := Int.ofNat (strtoul0 v) }

def withOs (r : ReceiverState) (v : String) : ReceiverState := { r with os := some v }

def withTimezone (r : ReceiverState) (v : String) : ReceiverState := { r with timezone := some v }

def withAbbrevTimezone (r : ReceiverState) (v : String) : ReceiverState :=
  { r with abbrev_timezone := some v }

def withUtcOffset (r : ReceiverState) (v : String) : ReceiverState :=
  { r with utc_offset := strtol0 v }

def withHops (r : ReceiverState) (v : String) : ReceiverState :=
  { r with hops := strtol0 v, system_info := { r.system_info with hops := strtol0 v } }

def withMlCapable (r : ReceiverState) (v : String) : ReceiverState :=
  { r with system_info := { r.system_info with ml_capable := strtoul0 v } }

def withMlEnabled (r : ReceiverState) (v : String) : ReceiverState :=
  { r with system_info := { r.system_info with ml_enabled := strtoul0 v } }

def withMcVersion (r : ReceiverState) (v : String) : ReceiverState :=
  { r with system_info := { r.system_info with mc_version := strtoul0 v } }

def withCapabilities (r : ReceiverState) (c : Nat) : ReceiverState := { r with capabilities := c }

def withSysInfoVar (r : ReceiverState) (name value : String) : ReceiverState :=
  { r with system_info := rrdhost_set_system_info_variable r.system_info name value }

/-- One iteration of the query-string parsing loop (source lines 315-387).
The if-chain order, the first-write guards on the string fields and on
`ver`, the unguarded overwrites of the numeric fields, the legacy name
remapping, and the NETDATA_PROTOCOL_VERSION capability fallback are all
kept exactly as in the source.  The int16_t truncation of `hops` is not
modelled. -/
def parse_query_field (r : ReceiverState) (name value : String) : ReceiverState :=
  if name = "key" ∧ r.key = none then withKey r value
  else if name = "hostname" ∧ r.hostname = none then withHostname r value
  else if name = "registry_hostname" ∧ r.registry_hostname = none then
    withRegistryHostname r value
  else if name = "machine_guid" ∧ r.machine_guid = none then withMachineGuid r value
  else if name = "update_every" then withUpdateEvery r value
  else if name = "os" ∧ r.os = none then withOs r value
  else if name = "timezone" ∧ r.timezone = none then withTimezone r value
  else if name = "abbrev_timezone" ∧ r.abbrev_timezone = none then withAbbrevTimezone r value
  else if name = "utc_offset" then withUtcOffset r value
  else if name = "hops" then withHops r value
  else if name = "ml_capable" then withMlCapable r value
  else if name = "ml_enabled" then withMlEnabled r value
  else if name = "mc_version" then withMcVersion r value
  else if name = "ver" ∧ r.capabilities &&& STREAM_CAP_INVALID ≠ 0 then
    withCapabilities r (convert_stream_version_to_capabilities (strtoul0 value))
  else
    let name2 :=
      if name = "NETDATA_SYSTEM_OS_NAME" then "NETDATA_HOST_OS_NAME"
      else if name = "NETDATA_SYSTEM_OS_ID" then "NETDATA_HOST_OS_ID"
      else if name = "NETDATA_SYSTEM_OS_ID_LIKE" then "NETDATA_HOST_OS_ID_LIKE"
      else if name = "NETDATA_SYSTEM_OS_VERSION" then "NETDATA_HOST_OS_VERSION"
      else if name = "NETDATA_SYSTEM_OS_VERSION_ID" then "NETDATA_HOST_OS_VERSION_ID"
      else if name = "NETDATA_SYSTEM_OS_DETECTION" then "NETDATA_HOST_OS_DETECTION"
      else name
    let r2 :=
      if name = "NETDATA_PROTOCOL_VERSION" ∧ r.capabilities &&& STREAM_CAP_INVALID ≠ 0 then
        withCapabilities r (convert_stream_version_to_capabilities 1)
      else r
    withSysInfoVar r2 name2 value

/-- One step of the parsing loop including the skip guards of source lines
307-313: pairs with an empty name or an empty value are ignored. -/
def parse_query_step (r : ReceiverState) (p : String × String) : ReceiverState :=
  if p.1 = "" ∨ p.2 = "" then r else parse_query_field r p.1 p.2

/-- The full parsing loop over the decoded query string, represented as the
ordered list of name/value pairs the front-end produced. -/
def parseQuery (r : ReceiverState) (q : List (String × String)) : ReceiverState :=
  q.foldl parse_query_step r

/-- Source lines 390-392: if no version was supplied, assume version 0. -/
def default_capabilities (r : ReceiverState) : ReceiverState :=
  if r.capabilities &&& STREAM_CAP_INVALID ≠ 0 then
    { r with capabilities := convert_stream_version_to_capabilities 0 }
  else r

-- ------------------------------------------------------------------
-- Spec-side views of the query string, used to state which occurrence of
-- a field determines the descriptor attribute.  These follow the spec's
-- words ("first occurrence wins") and are compared against the parsing
-- loop above, which is translated from the source.

/-- The value of the first valid occurrence of field `f` in the query
string (a pair counts only if its value is nonempty, since the parsing
loop skips empty values). -/
def firstWins (f : String) : List (String × String) → Option String
  | [] => none
  | p :: q => if p.1 = f ∧ p.2 ≠ "" then some p.2 else firstWins f q

/-- The value of the last valid occurrence of field `f` in the query
string. -/
def lastWins (f : String) : List (String × String) → Option String
  | [] => none
  | p :: q =>
    match lastWins f q with
    | some v => some v
    | none => if p.1 = f ∧ p.2 ≠ "" then some p.2 else none

/-- The capability value installed by the first valid occurrence of a
capability-setting field (`ver`, or the legacy NETDATA_PROTOCOL_VERSION),
if any. -/
def capFirst : List (String × String) → Option Nat
  | [] => none
  | p :: q =>
    if p.2 ≠ "" ∧ p.1 = "ver" then
      some (convert_stream_version_to_capabilities (strtoul0 p.2))
    else if p.2 ≠ "" ∧ p.1 = "NETDATA_PROTOCOL_VERSION" then
      some (convert_stream_version_to_capabilities 1)
    else capFirst q

-- ------------------------------------------------------------------
-- Environment: the external collaborators of the accept path, plus the
-- process-wide mutable state it reads (the rate-limit timestamp) and the
-- clocks.  Every oracle corresponds to one external call in the source.

/-- The durable host record found by `rrdhost_find_by_guid` for the
attempt's machine identity, restricted to what the accept path reads: the
ARCHIVED flag and, when a receiver is attached, that receiver's
`last_msg_t`. -/
structure HostInfo where
  archived : Bool
  receiver_last_msg_t : Option Int
deriving DecidableEq, Repr

/-- Tag distinguishing the previously attached receiver from the one this
admission attempt creates, in the host-attachment state. -/
inductive RcvTag
  | old
  | new
deriving DecidableEq, Repr

structure Env where
  /-- `service_running(ABILITY_STREAMING_CONNECTIONS)` -/
  service_running : Bool
  /-- `w->client_ip` -/
  client_ip : String
  /-- `regenerate_guid(s, buf) != -1`: s normalizes to a valid UUID -/
  valid_guid : String → Bool
  /-- `stream_conf_is_key_type(s, type)` -/
  is_key_type : String → String → Bool
  /-- `stream_conf_api_key_is_enabled(s, default_value)` -/
  api_key_is_enabled : String → Bool → Bool
  /-- `stream_conf_api_key_allows_client(s, ip)` -/
  api_key_allows_client : String → String → Bool
  /-- `localhost->machine_guid` -/
  localhost_machine_guid : String
  /-- `web_client_streaming_rate_t` (configured rate-limit interval) -/
  web_client_streaming_rate_t : Int
  /-- the static `last_stream_accepted_t` before this call (0 = never set) -/
  last_stream_accepted_t : Int
  /-- `now_realtime_sec()` during this call -/
  now_realtime : Int
  /-- `now_monotonic_sec()` during this call -/
  now_monotonic : Int
  /-- `rrdhost_find_by_guid(machine_guid)` (also the host that
  `rrdhost_find_or_create` would return, when present) -/
  host : Option HostInfo
  /-- result of `stream_receiver_signal_to_stop_and_wait` on the stale
  receiver -/
  stop_and_wait_ok : Bool
  /-- whether `rrdhost_find_or_create` produces a host when none existed -/
  find_or_create_ok : Bool
  /-- `rrdhost_flag_check(host, RRDHOST_FLAG_PENDING_CONTEXT_LOAD)` -/
  pending_context_load : Bool
  /-- `stream_control_children_should_be_accepted()` -/
  children_accepted : Bool
  /-- bytes reported by `nd_sock_send_timeout` for the handshake reply -/
  bytes_sent : Int

/-- The observable outcome of one call to
`stream_receiver_accept_connection`: the returned HTTP code, the response
buffer left in the web client, whether the transport was taken over,
whether the descriptor was freed or enqueued, the messages sent directly
on the taken-over transport, the last logged status tag and message, the
rate-limit timestamp after the call, the host's receiver attachment after
the call, and the descriptor's final field values. -/
structure AcceptResult where
  code : Nat
  response_body : String
  takeover : Bool
  freed : Bool
  enqueued : Bool
  stop_signaled : Bool
  raw_sends : List String
  status : Option String
  log : Option String
  last_accepted_t : Int
  attachment : Option RcvTag
  final_rpt : ReceiverState
deriving DecidableEq, Repr

/-- The host's receiver attachment as it stands when the call begins. -/
def initialAttachment (env : Env) : Option RcvTag :=
  match env.host with
  | some h => if h.receiver_last_msg_t.isSome then some RcvTag.old else none
  | none => none

/-- `!s || !*s`: the C null-or-empty test on an optional string field. -/
def optEmptyStr (o : Option String) : Bool :=
  match o with
  | none => true
  | some s => s == ""

/-- Source lines 75-81 plus the rejection boilerplate around each call
site: same body and code for every validation failure, descriptor freed,
no transport ownership transfer. -/
def stream_receiver_response_permission_denied (env : Env) (rpt : ReceiverState)
    (status msg : String) : AcceptResult :=
  { code := HTTP_RESP_UNAUTHORIZED, response_body := START_STREAMING_ERROR_NOT_PERMITTED,
    takeover := false, freed := true, enqueued := false, stop_signaled := false,
    raw_sends := [], status := some status, log := some msg,
    last_accepted_t := env.last_stream_accepted_t,
    attachment := initialAttachment env, final_rpt := rpt }

/-- The version-dependent handshake reply text (source lines 210-226). -/
def initial_response (rpt : ReceiverState) : String :=
  if rpt.capabilities &&& STREAM_CAP_VCAPS ≠ 0 then
    START_STREAMING_PROMPT_VN ++ toString rpt.capabilities
  else if rpt.capabilities &&& STREAM_CAP_VN ≠ 0 then
    START_STREAMING_PROMPT_VN ++ toString (stream_capabilities_to_vn rpt.capabilities)
  else if rpt.capabilities &&& STREAM_CAP_V2 ≠ 0 then
    START_STREAMING_PROMPT_V2
  else
    START_STREAMING_PROMPT_V1

/-- Outcome of `stream_receiver_send_first_response`: the returned bool,
the messages sent on the taken-over transport, the host attachment
afterwards, and the status logged on failure. -/
structure FirstResponseOutcome where
  ok : Bool
  raw_sends : List String
  attachment : Option RcvTag
  status : Option String
  log : Option String
deriving DecidableEq, Repr

/-- Embedding of `stream_receiver_send_first_response` (source lines
116-273).  `attach0` is the host's receiver attachment when the call
starts.  `rrdhost_set_receiver` is modelled from the spec (stream-receiver
internals are not under src/): attaching succeeds exactly when no receiver
is attached, and on success the host's attachment becomes this attempt's
receiver; `rrdhost_clear_receiver` releases the attachment.  The handshake
reply send succeeds exactly when the reported byte count equals the reply
length; a short write clears the attachment and fails the call. -/
def stream_receiver_send_first_response (env : Env) (rpt : ReceiverState)
    (attach0 : Option RcvTag) : FirstResponseOutcome :=
  if env.host = none ∧ env.find_or_create_ok = false then
    { ok := false, raw_sends := [START_STREAMING_ERROR_INTERNAL_ERROR], attachment := attach0,
      status := some STREAM_STATUS_INTERNAL_SERVER_ERROR,
      log := some "rejecting streaming connection; failed to find or create the required host structure" }
  else if env.pending_context_load then
    { ok := false, raw_sends := [START_STREAMING_ERROR_INITIALIZATION], attachment := attach0,
      status := some STREAM_STATUS_INITIALIZATION_IN_PROGRESS,
      log := some "rejecting streaming connection; host is initializing, retry later" }
  else if env.children_accepted = false then
    { ok := false, raw_sends := [START_STREAMING_ERROR_INITIALIZATION], attachment := attach0,
      status := some STREAM_STATUS_INITIALIZATION_IN_PROGRESS,
      log := some "rejecting streaming connection; the system is backfilling higher tiers with high-resolution data, retry later" }
  else if attach0.isSome then
    { ok := false, raw_sends := [START_STREAMING_ERROR_ALREADY_STREAMING], attachment := attach0,
      status := some STREAM_STATUS_DUPLICATE_RECEIVER,
      log := some "rejecting streaming connection; host is already served by another receiver" }
  else
    let resp := initial_response rpt
    if env.bytes_sent = (resp.length : Int) then
      { ok := true, raw_sends := [resp], attachment := some RcvTag.new,
        status := none, log := none }
    else
      { ok := false, raw_sends := [resp], attachment := none,
        status := some STREAM_STATUS_CANT_REPLY,
        log := some "cannot reply back, dropping connection" }

/-- Embedding of the duplicate-detection block and everything after it
(source lines 580-681): stale/working classification of an attached
receiver by age against the 30-second threshold, the signal-and-wait
eviction (modelled from the spec: on success the stale receiver detaches,
on failure the attachment stays), the conflict rejection, the transport
takeover, the first response, and the dispatch.  `last2` is the value the
rate-limit timestamp holds from here on. -/
def stream_receiver_dedup_and_dispatch (env : Env) (rpt : ReceiverState) (last2 : Int) :
    AcceptResult :=
  let hostOpt : Option HostInfo :=
    match env.host with
    | some h => if h.archived then none else some h
    | none => none
  let ageWS : Int × Bool × Bool :=
    match hostOpt with
    | some h =>
      match h.receiver_last_msg_t with
      | some t =>
        let age := env.now_monotonic - t
        if age < 30 then (age, true, false) else (age, false, true)
      | none => (0, false, false)
    | none => (0, false, false)
  let age := ageWS.1
  let receiver_working := ageWS.2.1
  let receiver_stale := ageWS.2.2
  let stop_signaled := receiver_stale
  let receiver_stale2 := receiver_stale && !env.stop_and_wait_ok
  let attach1 : Option RcvTag :=
    if receiver_stale && env.stop_and_wait_ok then none else initialAttachment env
  if receiver_working || receiver_stale2 then
    { code := HTTP_RESP_CONFLICT, response_body := START_STREAMING_ERROR_ALREADY_STREAMING,
      takeover := false, freed := true, enqueued := false, stop_signaled := stop_signaled,
      raw_sends := [], status := some STREAM_STATUS_ALREADY_CONNECTED,
      log := some ("rejecting streaming connection; multiple connections for same host, old connection was last used " ++ toString age ++ " secs ago"),
      last_accepted_t := last2, attachment := attach1, final_rpt := rpt }
  else
    let fr := stream_receiver_send_first_response env rpt attach1
    if fr.ok then
      { code := HTTP_RESP_OK, response_body := "", takeover := true, freed := false,
        enqueued := true, stop_signaled := stop_signaled, raw_sends := fr.raw_sends,
        status := some STREAM_STATUS_CONNECTED, log := some "connected and ready to receive data",
        last_accepted_t := last2, attachment := fr.attachment, final_rpt := rpt }
    else
      { code := HTTP_RESP_OK, response_body := "", takeover := true, freed := true,
        enqueued := false, stop_signaled := stop_signaled, raw_sends := fr.raw_sends,
        status := fr.status, log := fr.log,
        last_accepted_t := last2, attachment := fr.attachment, final_rpt := rpt }

/-- The descriptor after the parsing loop and the version-0 capability
default (source lines 280-392), as the validation chain first sees it. -/
def parsed_rpt (env : Env) (q : List (String × String)) : ReceiverState :=
  default_capabilities (parseQuery (initial_receiver_state env.now_realtime env.now_monotonic) q)

/-- Source lines 428-429: registry_hostname defaults to hostname when it
was never supplied (this runs between the hostname and machine-identity
checks). -/
def registry_default (r : ReceiverState) : ReceiverState :=
  if r.registry_hostname = none then { r with registry_hostname := r.hostname } else r

/-- The admission stages after identity/key validation (source lines
529-681): self-connection guard, global rate limiting with lazy
initialization of the timestamp, then duplicate detection and admission. -/
def stream_receiver_admission (env : Env) (rpt : ReceiverState) : AcceptResult :=
  if rpt.machine_guid.getD "" = env.localhost_machine_guid then
    { code := HTTP_RESP_OK, response_body := "", takeover := true, freed := true,
      enqueued := false, stop_signaled := false,
      raw_sends := [START_STREAMING_ERROR_SAME_LOCALHOST],
      status := some STREAM_STATUS_LOCALHOST,
      log := some "rejecting streaming connection; machine UUID is my own",
      last_accepted_t := env.last_stream_accepted_t,
      attachment := initialAttachment env, final_rpt := rpt }
  else if env.web_client_streaming_rate_t > 0 then
    let now := env.now_realtime
    let last1 := if env.last_stream_accepted_t = 0 then now else env.last_stream_accepted_t
    if now - last1 < env.web_client_streaming_rate_t then
      { code := HTTP_RESP_SERVICE_UNAVAILABLE,
        response_body := START_STREAMING_ERROR_BUSY_TRY_LATER,
        takeover := false, freed := true, enqueued := false, stop_signaled := false,
        raw_sends := [], status := some STREAM_STATUS_RATE_LIMIT,
        log := some "rejecting streaming connection; rate limit",
        last_accepted_t := last1, attachment := initialAttachment env, final_rpt := rpt }
    else
      stream_receiver_dedup_and_dispatch env rpt now
  else
    stream_receiver_dedup_and_dispatch env rpt env.last_stream_accepted_t

/-- Embedding of `stream_receiver_accept_connection` (source lines
275-681): service gate, query parsing, the eleven identity/key checks in
source order with the registry_hostname defaulting between checks two and
three, then the admission stages. -/
def stream_receiver_accept_connection (env : Env) (q : List (String × String)) : AcceptResult :=
  if env.service_running = false then
    { code := HTTP_RESP_SERVICE_UNAVAILABLE, response_body := START_STREAMING_ERROR_BUSY_TRY_LATER,
      takeover := false, freed := false, enqueued := false, stop_signaled := false,
      raw_sends := [], status := none, log := none,
      last_accepted_t := env.last_stream_accepted_t,
      attachment := initialAttachment env,
      final_rpt := initial_receiver_state env.now_realtime env.now_monotonic }
  else
    let rpt2 := parsed_rpt env q
    if optEmptyStr rpt2.key then
      stream_receiver_response_permission_denied env rpt2 STREAM_STATUS_NO_API_KEY
        "rejecting streaming connection; request without an API key"
    else if optEmptyStr rpt2.hostname then
      stream_receiver_response_permission_denied env rpt2 STREAM_STATUS_NO_HOSTNAME
        "rejecting streaming connection; request without a hostname"
    else
      let rpt3 := registry_default rpt2
      if optEmptyStr rpt3.machine_guid then
        stream_receiver_response_permission_denied env rpt3 STREAM_STATUS_NO_MACHINE_GUID
          "rejecting streaming connection; request without a machine UUID"
      else if env.valid_guid (rpt3.key.getD "") = false then
        stream_receiver_response_permission_denied env rpt3 STREAM_STATUS_INVALID_API_KEY
          "rejecting streaming connection; API key is not a valid UUID (use the command uuidgen to generate one)"
      else if env.valid_guid (rpt3.machine_guid.getD "") = false then
        stream_receiver_response_permission_denied env rpt3 STREAM_STATUS_INVALID_MACHINE_GUID
          "rejecting streaming connection; machine UUID is not a valid UUID"
      else if env.is_key_type (rpt3.key.getD "") "api" = false then
        stream_receiver_response_permission_denied env rpt3 STREAM_STATUS_INVALID_API_KEY
          "rejecting streaming connection; API key provided is a machine UUID (did you mix them up?)"
      else if env.api_key_is_enabled (rpt3.key.getD "") false = false then
        stream_receiver_response_permission_denied env rpt3 STREAM_STATUS_API_KEY_DISABLED
          "rejecting streaming connection; API key is not enabled in stream.conf"
      else if env.api_key_allows_client (rpt3.key.getD "") env.client_ip = false then
        stream_receiver_response_permission_denied env rpt3 STREAM_STATUS_NOT_ALLOWED_IP
          "rejecting streaming connection; API key is not allowed from this IP"
      else if env.is_key_type (rpt3.machine_guid.getD "") "machine" = false then
        stream_receiver_response_permission_denied env rpt3 STREAM_STATUS_INVALID_MACHINE_GUID
          "rejecting streaming connection; machine UUID is an API key (did you mix them up?)"
      else if env.api_key_is_enabled (rpt3.machine_guid.getD "") true = false then
        stream_receiver_response_permission_denied env rpt3 STREAM_STATUS_MACHINE_GUID_DISABLED
          "rejecting streaming connection; machine UUID is not enabled in stream.conf"
      else if env.api_key_allows_client (rpt3.machine_guid.getD "") env.client_ip = false then
        stream_receiver_response_permission_denied env rpt3 STREAM_STATUS_NOT_ALLOWED_IP
          "rejecting streaming connection; machine UUID is not allowed from this IP"
      else
        stream_receiver_admission env rpt3

/-- The eleven identity/key validation checks of source lines 408-527, in
source order, each as (passes, status tag, log message).  The claimed
order is: empty key, empty hostname, empty machine identity, key UUID
format, machine-identity UUID format, key category, key enabled (default
disabled), key IP allow-list, machine-identity category, machine-identity
enabled (default enabled), machine-identity IP allow-list. -/
def validation_checks (env : Env) (r : ReceiverState) : List (Bool × String × String) :=
  [ (!(optEmptyStr r.key), STREAM_STATUS_NO_API_KEY,
      "rejecting streaming connection; request without an API key"),
    (!(optEmptyStr r.hostname), STREAM_STATUS_NO_HOSTNAME,
      "rejecting streaming connection; request without a hostname"),
    (!(optEmptyStr r.machine_guid), STREAM_STATUS_NO_MACHINE_GUID,
      "rejecting streaming connection; request without a machine UUID"),
    (env.valid_guid (r.key.getD ""), STREAM_STATUS_INVALID_API_KEY,
      "rejecting streaming connection; API key is not a valid UUID (use the command uuidgen to generate one)"),
    (env.valid_guid (r.machine_guid.getD ""), STREAM_STATUS_INVALID_MACHINE_GUID,
      "rejecting streaming connection; machine UUID is not a valid UUID"),
    (env.is_key_type (r.key.getD "") "api", STREAM_STATUS_INVALID_API_KEY,
      "rejecting streaming connection; API key provided is a machine UUID (did you mix them up?)"),
    (env.api_key_is_enabled (r.key.getD "") false, STREAM_STATUS_API_KEY_DISABLED,
      "rejecting streaming connection; API key is not enabled in stream.conf"),
    (env.api_key_allows_client (r.key.getD "") env.client_ip, STREAM_STATUS_NOT_ALLOWED_IP,
      "rejecting streaming connection; API key is not allowed from this IP"),
    (env.is_key_type (r.machine_guid.getD "") "machine", STREAM_STATUS_INVALID_MACHINE_GUID,
      "rejecting streaming connection; machine UUID is an API key (did you mix them up?)"),
    (env.api_key_is_enabled (r.machine_guid.getD "") true, STREAM_STATUS_MACHINE_GUID_DISABLED,
      "rejecting streaming connection; machine UUID is not enabled in stream.conf"),
    (env.api_key_allows_client (r.machine_guid.getD "") env.client_ip, STREAM_STATUS_NOT_ALLOWED_IP,
      "rejecting streaming connection; machine UUID is not allowed from this IP") ]

/-- All eleven validation checks pass. -/
def validation_passes (env : Env) (r : ReceiverState) : Bool :=
  (validation_checks env r).all (fun t => t.1)

/-- Whether the global rate-limit gate (source lines 552-578) lets an
attempt through, including the lazy initialization of the timestamp. -/
def rate_gate_passes (env : Env) : Bool :=
  if env.web_client_streaming_rate_t > 0 then
    let now := env.now_realtime
    let last1 := if env.last_stream_accepted_t = 0 then now else env.last_stream_accepted_t
    if now - last1 < env.web_client_streaming_rate_t then false else true
  else true

-- ------------------------------------------------------------------
-- Concrete environments and queries used to instantiate the theorems.

/-- A permissive baseline environment: service up, every policy oracle
answers yes, no rate limit, no existing host, sends succeed. -/
def env0 : Env :=
  { service_running := true, client_ip := "10.0.0.1",
    valid_guid := fun _ => true, is_key_type := fun _ _ => true,
    api_key_is_enabled := fun _ _ => true, api_key_allows_client := fun _ _ => true,
    localhost_machine_guid := "LOCALHOST-GUID", web_client_streaming_rate_t := 0,
    last_stream_accepted_t := 0, now_realtime := 1000, now_monotonic := 500,
    host := none, stop_and_wait_ok := true, find_or_create_ok := true,
    pending_context_load := false, children_accepted := true,
    bytes_sent := (START_STREAMING_PROMPT_V1.length : Int) }

/-- A minimal query that passes the identity checks. -/
def q_basic : List (String × String) := [("key", "K"), ("hostname", "h"), ("machine_guid", "G")]

/-- env0 with a non-archived host whose attached receiver is 30 time units
old (stale) at this call's monotonic clock. -/
def env_stale : Env :=
  { env0 with host := some { archived := false, receiver_last_msg_t := some 470 } }

/-- env_stale, but the stale receiver does not stop within the bound. -/
def env_stale_fail : Env := { env_stale with stop_and_wait_ok := false }

/-- env0 with a non-archived host whose attached receiver is 20 time units
old (still working). -/
def env_working : Env :=
  { env0 with host := some { archived := false, receiver_last_msg_t := some 480 } }

/-- env0 with rate limit 10 and an established timestamp 10 units ago. -/
def env_rate_a : Env :=
  { env0 with
    web_client_streaming_rate_t := 10
    last_stream_accepted_t := 100
    now_realtime := 110 }

/-- env_rate_a threaded forward: timestamp 110, next attempt 3 units later. -/
def env_rate_b : Env := { env_rate_a with last_stream_accepted_t := 110, now_realtime := 113 }

/-- env_rate_a threaded forward: timestamp 110, next attempt 10 units later. -/
def env_rate_c : Env := { env_rate_a with last_stream_accepted_t := 110, now_realtime := 120 }

/-- env0 with rate limit 10 and the timestamp still in its initial zero
state (no attempt ever accepted). -/
def env_rate_zero : Env := { env0 with web_client_streaming_rate_t := 10 }

/-- env0 where the declared machine identity is the local node's own. -/
def env_local : Env := { env0 with localhost_machine_guid := "G" }

/-- env0 with a receiverless host and a short write on the handshake
reply (0 bytes reported). -/
def env_short : Env :=
  { env0 with host := some { archived := false, receiver_last_msg_t := none }, bytes_sent := 0 }

/-- env0 whose key-policy store classifies every identifier as a machine
identifier, so the key-category check (the sixth check) is the first to
fail. -/
def env_keytype : Env := { env0 with is_key_type := fun _ t => t == "machine" }

/-- The follow-up attempt after env_rate_zero's rejected first attempt:
the timestamp it established (1000) carried forward, one full interval
later. -/
def env_rate_zero2 : Env :=
  { env_rate_zero with last_stream_accepted_t := 1000, now_realtime := 1010 }

-- ------------------------------------------------------------------
-- Step lemmas: how one iteration of the parsing loop acts on each
-- descriptor field.

theorem pqf_key_of_ne (r : ReceiverState) (n v : String) (h : ¬ n = "key") :
    (parse_query_field r n v).key = r.key := by
  unfold parse_query_field
  simp only [apply_ite (fun s : ReceiverState => s.key), withKey, withHostname,
    withRegistryHostname, withMachineGuid, withUpdateEvery, withOs, withTimezone,
    withAbbrevTimezone, withUtcOffset, withHops, withMlCapable, withMlEnabled, withMcVersion,
    withCapabilities, withSysInfoVar, h, false_and, if_false, ite_self]

theorem pqf_key_self (r : ReceiverState) (v : String) :
    (parse_query_field r "key" v).key = if r.key = none then some v else r.key := by
  unfold parse_query_field
  simp only [apply_ite (fun s : ReceiverState => s.key), withKey, withHostname,
    withRegistryHostname, withMachineGuid, withUpdateEvery, withOs, withTimezone,
    withAbbrevTimezone, withUtcOffset, withHops, withMlCapable, withMlEnabled, withMcVersion,
    withCapabilities, withSysInfoVar]
  simp

theorem pqf_hostname_of_ne (r : ReceiverState) (n v : String) (h : ¬ n = "hostname") :
    (parse_query_field r n v).hostname = r.hostname := by
  unfold parse_query_field
  simp only [apply_ite (fun s : ReceiverState => s.hostname), withKey, withHostname,
    withRegistryHostname, withMachineGuid, withUpdateEvery, withOs, withTimezone,
    withAbbrevTimezone, withUtcOffset, withHops, withMlCapable, withMlEnabled, withMcVersion,
    withCapabilities, withSysInfoVar, h, false_and, if_false, ite_self]

theorem pqf_hostname_self (r : ReceiverState) (v : String) :
    (parse_query_field r "hostname" v).hostname =
      if r.hostname = none then some v else r.hostname := by
  unfold parse_query_field
  simp only [apply_ite (fun s : ReceiverState => s.hostname), withKey, withHostname,
    withRegistryHostname, withMachineGuid, withUpdateEvery, withOs, withTimezone,
    withAbbrevTimezone, withUtcOffset, withHops, withMlCapable, withMlEnabled, withMcVersion,
    withCapabilities, withSysInfoVar]
  simp

theorem pqf_registry_hostname_of_ne (r : ReceiverState) (n v : String)
    (h : ¬ n = "registry_hostname") :
    (parse_query_field r n v).registry_hostname = r.registry_hostname := by
  unfold parse_query_field
  simp only [apply_ite (fun s : ReceiverState => s.registry_hostname), withKey, withHostname,
    withRegistryHostname, withMachineGuid, withUpdateEvery, withOs, withTimezone,
    withAbbrevTimezone, withUtcOffset, withHops, withMlCapable, withMlEnabled, withMcVersion,
    withCapabilities, withSysInfoVar, h, false_and, if_false, ite_self]

theorem pqf_registry_hostname_self (r : ReceiverState) (v : String) :
    (parse_query_field r "registry_hostname" v).registry_hostname =
      if r.registry_hostname = none then some v else r.registry_hostname := by
  unfold parse_query_field
  simp only [apply_ite (fun s : ReceiverState => s.registry_hostname), withKey, withHostname,
    withRegistryHostname, withMachineGuid, withUpdateEvery, withOs, withTimezone,
    withAbbrevTimezone, withUtcOffset, withHops, withMlCapable, withMlEnabled, withMcVersion,
    withCapabilities, withSysInfoVar]
  simp

theorem pqf_machine_guid_of_ne (r : ReceiverState) (n v : String) (h : ¬ n = "machine_guid") :
    (parse_query_field r n v).machine_guid = r.machine_guid := by
  unfold parse_query_field
  simp only [apply_ite (fun s : ReceiverState => s.machine_guid), withKey, withHostname,
    withRegistryHostname, withMachineGuid, withUpdateEvery, withOs, withTimezone,
    withAbbrevTimezone, withUtcOffset, withHops, withMlCapable, withMlEnabled, withMcVersion,
    withCapabilities, withSysInfoVar, h, false_and, if_false, ite_self]

theorem pqf_machine_guid_self (r : ReceiverState) (v : String) :
    (parse_query_field r "machine_guid" v).machine_guid =
      if r.machine_guid = none then some v else r.machine_guid := by
  unfold parse_query_field
  simp only [apply_ite (fun s : ReceiverState => s.machine_guid), withKey, withHostname,
    withRegistryHostname, withMachineGuid, withUpdateEvery, withOs, withTimezone,
    withAbbrevTimezone, withUtcOffset, withHops, withMlCapable, withMlEnabled, withMcVersion,
    withCapabilities, withSysInfoVar]
  simp

theorem pqf_os_of_ne (r : ReceiverState) (n v : String) (h : ¬ n = "os") :
    (parse_query_field r n v).os = r.os := by
  unfold parse_query_field
  simp only [apply_ite (fun s : ReceiverState => s.os), withKey, withHostname,
    withRegistryHostname, withMachineGuid, withUpdateEvery, withOs, withTimezone,
    withAbbrevTimezone, withUtcOffset, withHops, withMlCapable, withMlEnabled, withMcVersion,
    withCapabilities, withSysInfoVar, h, false_and, if_false, ite_self]

theorem pqf_os_self (r : ReceiverState) (v : String) :
    (parse_query_field r "os" v).os = if r.os = none then some v else r.os := by
  unfold parse_query_field
  simp only [apply_ite (fun s : ReceiverState => s.os), withKey, withHostname,
    withRegistryHostname, withMachineGuid, withUpdateEvery, withOs, withTimezone,
    withAbbrevTimezone, withUtcOffset, withHops, withMlCapable, withMlEnabled, withMcVersion,
    withCapabilities, withSysInfoVar]
  simp

theorem pqf_timezone_of_ne (r : ReceiverState) (n v : String) (h : ¬ n = "timezone") :
    (parse_query_field r n v).timezone = r.timezone := by
  unfold parse_query_field
  simp only [apply_ite (fun s : ReceiverState => s.timezone), withKey, withHostname,
    withRegistryHostname, withMachineGuid, withUpdateEvery, withOs, withTimezone,
    withAbbrevTimezone, withUtcOffset, withHops, withMlCapable, withMlEnabled, withMcVersion,
    withCapabilities, withSysInfoVar, h, false_and, if_false, ite_self]

theorem pqf_timezone_self (r : ReceiverState) (v : String) :
    (parse_query_field r "timezone" v).timezone =
      if r.timezone = none then some v else r.timezone := by
  unfold parse_query_field
  simp only [apply_ite (fun s : ReceiverState => s.timezone), withKey, withHostname,
    withRegistryHostname, withMachineGuid, withUpdateEvery, withOs, withTimezone,
    withAbbrevTimezone, withUtcOffset, withHops, withMlCapable, withMlEnabled, withMcVersion,
    withCapabilities, withSysInfoVar]
  simp

theorem pqf_abbrev_timezone_of_ne (r : ReceiverState) (n v : String)
    (h : ¬ n = "abbrev_timezone") :
    (parse_query_field r n v).abbrev_timezone = r.abbrev_timezone := by
  unfold parse_query_field
  simp only [apply_ite (fun s : ReceiverState => s.abbrev_timezone), withKey, withHostname,
    withRegistryHostname, withMachineGuid, withUpdateEvery, withOs, withTimezone,
    withAbbrevTimezone, withUtcOffset, withHops, withMlCapable, withMlEnabled, withMcVersion,
    withCapabilities, withSysInfoVar, h, false_and, if_false, ite_self]

theorem pqf_abbrev_timezone_self (r : ReceiverState) (v : String) :
    (parse_query_field r "abbrev_timezone" v).abbrev_timezone =
      if r.abbrev_timezone = none then some v else r.abbrev_timezone := by
  unfold parse_query_field
  simp only [apply_ite (fun s : ReceiverState => s.abbrev_timezone), withKey, withHostname,
    withRegistryHostname, withMachineGuid, withUpdateEvery, withOs, withTimezone,
    withAbbrevTimezone, withUtcOffset, withHops, withMlCapable, withMlEnabled, withMcVersion,
    withCapabilities, withSysInfoVar]
  simp

theorem pqf_update_every_of_ne (r : ReceiverState) (n v : String) (h : ¬ n = "update_every") :
    (parse_query_field r n v).config_update_every = r.config_update_every := by
  unfold parse_query_field
  simp only [apply_ite (fun s : ReceiverState => s.config_update_every), withKey, withHostname,
    withRegistryHostname, withMachineGuid, withUpdateEvery, withOs, withTimezone,
    withAbbrevTimezone, withUtcOffset, withHops, withMlCapable, withMlEnabled, withMcVersion,
    withCapabilities, withSysInfoVar, h, false_and, if_false, ite_self]

theorem pqf_update_every_self (r : ReceiverState) (v : String) :
    (parse_query_field r "update_every" v).config_update_every = Int.ofNat (strtoul0 v) := by
  unfold parse_query_field
  simp only [apply_ite (fun s : ReceiverState => s.config_update_every), withKey, withHostname,
    withRegistryHostname, withMachineGuid, withUpdateEvery, withOs, withTimezone,
    withAbbrevTimezone, withUtcOffset, withHops, withMlCapable, withMlEnabled, withMcVersion,
    withCapabilities, withSysInfoVar]
  simp

theorem pqf_utc_offset_of_ne (r : ReceiverState) (n v : String) (h : ¬ n = "utc_offset") :
    (parse_query_field r n v).utc_offset = r.utc_offset := by
  unfold parse_query_field
  simp only [apply_ite (fun s : ReceiverState => s.utc_offset), withKey, withHostname,
    withRegistryHostname, withMachineGuid, withUpdateEvery, withOs, withTimezone,
    withAbbrevTimezone, withUtcOffset, withHops, withMlCapable, withMlEnabled, withMcVersion,
    withCapabilities, withSysInfoVar, h, false_and, if_false, ite_self]

theorem pqf_utc_offset_self (r : ReceiverState) (v : String) :
    (parse_query_field r "utc_offset" v).utc_offset = strtol0 v := by
  unfold parse_query_field
  simp only [apply_ite (fun s : ReceiverState => s.utc_offset), withKey, withHostname,
    withRegistryHostname, withMachineGuid, withUpdateEvery, withOs, withTimezone,
    withAbbrevTimezone, withUtcOffset, withHops, withMlCapable, withMlEnabled, withMcVersion,
    withCapabilities, withSysInfoVar]
  simp

theorem pqf_hops_of_ne (r : ReceiverState) (n v : String) (h : ¬ n = "hops") :
    (parse_query_field r n v).hops = r.hops := by
  unfold parse_query_field
  simp only [apply_ite (fun s : ReceiverState => s.hops), withKey, withHostname,
    withRegistryHostname, withMachineGuid, withUpdateEvery, withOs, withTimezone,
    withAbbrevTimezone, withUtcOffset, withHops, withMlCapable, withMlEnabled, withMcVersion,
    withCapabilities, withSysInfoVar, h, false_and, if_false, ite_self]

theorem pqf_hops_self (r : ReceiverState) (v : String) :
    (parse_query_field r "hops" v).hops = strtol0 v := by
  unfold parse_query_field
  simp only [apply_ite (fun s : ReceiverState => s.hops), withKey, withHostname,
    withRegistryHostname, withMachineGuid, withUpdateEvery, withOs, withTimezone,
    withAbbrevTimezone, withUtcOffset, withHops, withMlCapable, withMlEnabled, withMcVersion,
    withCapabilities, withSysInfoVar]
  simp

theorem pqf_si_hops_of_ne (r : ReceiverState) (n v : String) (h : ¬ n = "hops") :
    (parse_query_field r n v).system_info.hops = r.system_info.hops := by
  unfold parse_query_field
  simp only [apply_ite (fun s : ReceiverState => s.system_info.hops), withKey, withHostname,
    withRegistryHostname, withMachineGuid, withUpdateEvery, withOs, withTimezone,
    withAbbrevTimezone, withUtcOffset, withHops, withMlCapable, withMlEnabled, withMcVersion,
    withCapabilities, withSysInfoVar, rrdhost_set_system_info_variable, h, false_and, if_false,
    ite_self]

theorem pqf_si_hops_self (r : ReceiverState) (v : String) :
    (parse_query_field r "hops" v).system_info.hops = strtol0 v := by
  unfold parse_query_field
  simp only [apply_ite (fun s : ReceiverState => s.system_info.hops), withKey, withHostname,
    withRegistryHostname, withMachineGuid, withUpdateEvery, withOs, withTimezone,
    withAbbrevTimezone, withUtcOffset, withHops, withMlCapable, withMlEnabled, withMcVersion,
    withCapabilities, withSysInfoVar, rrdhost_set_system_info_variable]
  simp

theorem pqf_ml_capable_of_ne (r : ReceiverState) (n v : String) (h : ¬ n = "ml_capable") :
    (parse_query_field r n v).system_info.ml_capable = r.system_info.ml_capable := by
  unfold parse_query_field
  simp only [apply_ite (fun s : ReceiverState => s.system_info.ml_capable), withKey,
    withHostname, withRegistryHostname, withMachineGuid, withUpdateEvery, withOs, withTimezone,
    withAbbrevTimezone, withUtcOffset, withHops, withMlCapable, withMlEnabled, withMcVersion,
    withCapabilities, withSysInfoVar, rrdhost_set_system_info_variable, h, false_and, if_false,
    ite_self]

theorem pqf_ml_capable_self (r : ReceiverState) (v : String) :
    (parse_query_field r "ml_capable" v).system_info.ml_capable = strtoul0 v := by
  unfold parse_query_field
  simp only [apply_ite (fun s : ReceiverState => s.system_info.ml_capable), withKey,
    withHostname, withRegistryHostname, withMachineGuid, withUpdateEvery, withOs, withTimezone,
    withAbbrevTimezone, withUtcOffset, withHops, withMlCapable, withMlEnabled, withMcVersion,
    withCapabilities, withSysInfoVar, rrdhost_set_system_info_variable]
  simp

theorem pqf_ml_enabled_of_ne (r : ReceiverState) (n v : String) (h : ¬ n = "ml_enabled") :
    (parse_query_field r n v).system_info.ml_enabled = r.system_info.ml_enabled := by
  unfold parse_query_field
  simp only [apply_ite (fun s : ReceiverState => s.system_info.ml_enabled), withKey,
    withHostname, withRegistryHostname, withMachineGuid, withUpdateEvery, withOs, withTimezone,
    withAbbrevTimezone, withUtcOffset, withHops, withMlCapable, withMlEnabled, withMcVersion,
    withCapabilities, withSysInfoVar, rrdhost_set_system_info_variable, h, false_and, if_false,
    ite_self]

theorem pqf_ml_enabled_self (r : ReceiverState) (v : String) :
    (parse_query_field r "ml_enabled" v).system_info.ml_enabled = strtoul0 v := by
  unfold parse_query_field
  simp only [apply_ite (fun s : ReceiverState => s.system_info.ml_enabled), withKey,
    withHostname, withRegistryHostname, withMachineGuid, withUpdateEvery, withOs, withTimezone,
    withAbbrevTimezone, withUtcOffset, withHops, withMlCapable, withMlEnabled, withMcVersion,
    withCapabilities, withSysInfoVar, rrdhost_set_system_info_variable]
  simp

theorem pqf_mc_version_of_ne (r : ReceiverState) (n v : String) (h : ¬ n = "mc_version") :
    (parse_query_field r n v).system_info.mc_version = r.system_info.mc_version := by
  unfold parse_query_field
  simp only [apply_ite (fun s : ReceiverState => s.system_info.mc_version), withKey,
    withHostname, withRegistryHostname, withMachineGuid, withUpdateEvery, withOs, withTimezone,
    withAbbrevTimezone, withUtcOffset, withHops, withMlCapable, withMlEnabled, withMcVersion,
    withCapabilities, withSysInfoVar, rrdhost_set_system_info_variable, h, false_and, if_false,
    ite_self]

theorem pqf_mc_version_self (r : ReceiverState) (v : String) :
    (parse_query_field r "mc_version" v).system_info.mc_version = strtoul0 v := by
  unfold parse_query_field
  simp only [apply_ite (fun s : ReceiverState => s.system_info.mc_version), withKey,
    withHostname, withRegistryHostname, withMachineGuid, withUpdateEvery, withOs, withTimezone,
    withAbbrevTimezone, withUtcOffset, withHops, withMlCapable, withMlEnabled, withMcVersion,
    withCapabilities, withSysInfoVar, rrdhost_set_system_info_variable]
  simp

theorem pqf_caps_of_ne (r : ReceiverState) (n v : String) (h1 : ¬ n = "ver")
    (h2 : ¬ n = "NETDATA_PROTOCOL_VERSION") :
    (parse_query_field r n v).capabilities = r.capabilities := by
  unfold parse_query_field
  simp only [apply_ite (fun s : ReceiverState => s.capabilities), withKey, withHostname,
    withRegistryHostname, withMachineGuid, withUpdateEvery, withOs, withTimezone,
    withAbbrevTimezone, withUtcOffset, withHops, withMlCapable, withMlEnabled, withMcVersion,
    withCapabilities, withSysInfoVar, h1, h2, false_and, if_false, ite_self]

theorem pqf_caps_ver (r : ReceiverState) (v : String) :
    (parse_query_field r "ver" v).capabilities =
      if r.capabilities &&& STREAM_CAP_INVALID ≠ 0 then
        convert_stream_version_to_capabilities (strtoul0 v)
      else r.capabilities := by
  unfold parse_query_field
  simp only [apply_ite (fun s : ReceiverState => s.capabilities), withKey, withHostname,
    withRegistryHostname, withMachineGuid, withUpdateEvery, withOs, withTimezone,
    withAbbrevTimezone, withUtcOffset, withHops, withMlCapable, withMlEnabled, withMcVersion,
    withCapabilities, withSysInfoVar]
  simp

theorem pqf_caps_npv (r : ReceiverState) (v : String) :
    (parse_query_field r "NETDATA_PROTOCOL_VERSION" v).capabilities =
      if r.capabilities &&& STREAM_CAP_INVALID ≠ 0 then
        convert_stream_version_to_capabilities 1
      else r.capabilities := by
  unfold parse_query_field
  simp only [apply_ite (fun s : ReceiverState => s.capabilities), withKey, withHostname,
    withRegistryHostname, withMachineGuid, withUpdateEvery, withOs, withTimezone,
    withAbbrevTimezone, withUtcOffset, withHops, withMlCapable, withMlEnabled, withMcVersion,
    withCapabilities, withSysInfoVar]
  simp

-- ------------------------------------------------------------------
-- Parse-loop characterization: first-write-wins fields and
-- overwrite-on-every-occurrence fields.

theorem parseQuery_firstWins (g : ReceiverState → Option String) (f : String)
    (hf : ¬ f = "")
    (hne : ∀ r n v, ¬ n = f → g (parse_query_field r n v) = g r)
    (hself : ∀ r v, g (parse_query_field r f v) = if g r = none then some v else g r) :
    ∀ (q : List (String × String)) (r : ReceiverState),
      g (parseQuery r q) =
        match g r with
        | some w => some w
        | none => firstWins f q := by
  intro q
  induction q with
  | nil =>
    intro r
    cases hgr : g r <;> simp [parseQuery, firstWins, hgr]
  | cons p q ih =>
    intro r
    show g (parseQuery (parse_query_step r p) q) =
      match g r with
      | some w => some w
      | none => firstWins f (p :: q)
    cases hgr : g r with
    | some w =>
      have hstep : g (parse_query_step r p) = some w := by
        unfold parse_query_step
        split
        · exact hgr
        · by_cases hp : p.1 = f
          · rw [hp, hself, hgr]
            simp
          · rw [hne r p.1 p.2 hp, hgr]
      rw [ih (parse_query_step r p), hstep]
    | none =>
      unfold parse_query_step
      split
      · -- the pair is skipped (empty name or empty value)
        rename_i hskip
        rw [ih r, hgr]
        rcases hskip with h1 | h2
        · have hcond : ¬ ("" = f ∧ ¬ p.2 = "") := fun hc => hf hc.1.symm
          simp [firstWins, h1, hcond]
        · simp [firstWins, h2]
      · by_cases hp : p.1 = f
        · have h2 : ¬ p.2 = "" := by
            rename_i hskip
            intro hc
            exact hskip (Or.inr hc)
          have hstep : g (parse_query_field r p.1 p.2) = some p.2 := by
            rw [hp, hself, hgr]
            simp
          rw [ih _, hstep]
          simp [firstWins, hp, h2]
        · have hstep : g (parse_query_field r p.1 p.2) = none := by
            rw [hne r p.1 p.2 hp, hgr]
          rw [ih _, hstep]
          simp [firstWins, hp]

theorem parseQuery_lastWins {α : Type} (g : ReceiverState → α) (f : String) (val : String → α)
    (hf : ¬ f = "")
    (hne : ∀ r n v, ¬ n = f → g (parse_query_field r n v) = g r)
    (hself : ∀ r v, g (parse_query_field r f v) = val v) :
    ∀ (q : List (String × String)) (r : ReceiverState),
      g (parseQuery r q) =
        match lastWins f q with
        | some v => val v
        | none => g r := by
  intro q
  induction q with
  | nil =>
    intro r
    simp [parseQuery, lastWins]
  | cons p q ih =>
    intro r
    show g (parseQuery (parse_query_step r p) q) =
      match lastWins f (p :: q) with
      | some v => val v
      | none => g r
    rw [ih (parse_query_step r p)]
    cases hq : lastWins f q with
    | some v => simp [lastWins, hq]
    | none =>
      simp only [lastWins, hq]
      unfold parse_query_step
      split
      · rename_i hskip
        rcases hskip with h1 | h2
        · have : ¬ (p.1 = f ∧ ¬ p.2 = "") := by
            intro h
            exact hf (h1 ▸ h.1).symm
          simp [this]
        · simp [h2]
      · rename_i hskip
        have h2 : ¬ p.2 = "" := fun hc => hskip (Or.inr hc)
        by_cases hp : p.1 = f
        · rw [hp, hself]
          simp [hp, h2]
        · rw [hne r p.1 p.2 hp]
          simp [hp]

theorem convert_no_invalid (v : Nat) :
    convert_stream_version_to_capabilities v &&& STREAM_CAP_INVALID = 0 := by
  unfold convert_stream_version_to_capabilities
  split_ifs <;> rfl

theorem parseQuery_caps_frame (q : List (String × String)) :
    ∀ (r : ReceiverState), r.capabilities &&& STREAM_CAP_INVALID = 0 →
      (parseQuery r q).capabilities = r.capabilities := by
  induction q with
  | nil =>
    intro r _
    simp [parseQuery]
  | cons p q ih =>
    intro r h
    show (parseQuery (parse_query_step r p) q).capabilities = r.capabilities
    have hstep : (parse_query_step r p).capabilities = r.capabilities := by
      unfold parse_query_step
      split
      · rfl
      · by_cases hv : p.1 = "ver"
        · rw [hv, pqf_caps_ver, h]
          simp
        · by_cases hn : p.1 = "NETDATA_PROTOCOL_VERSION"
          · rw [hn, pqf_caps_npv, h]
            simp
          · exact pqf_caps_of_ne r p.1 p.2 hv hn
    rw [ih _ (hstep ▸ h), hstep]

theorem parseQuery_caps_of_invalid (q : List (String × String)) :
    ∀ (r : ReceiverState), r.capabilities &&& STREAM_CAP_INVALID ≠ 0 →
      (parseQuery r q).capabilities = (capFirst q).getD r.capabilities := by
  induction q with
  | nil =>
    intro r _
    simp [parseQuery, capFirst]
  | cons p q ih =>
    intro r h
    show (parseQuery (parse_query_step r p) q).capabilities = (capFirst (p :: q)).getD r.capabilities
    unfold parse_query_step
    split
    · rename_i hskip
      rw [ih r h]
      rcases hskip with h1 | h2
      · have hv : ¬ (¬ p.2 = "" ∧ p.1 = "ver") := by
          intro hc
          rw [h1] at hc
          exact absurd hc.2 (by decide)
        have hn : ¬ (¬ p.2 = "" ∧ p.1 = "NETDATA_PROTOCOL_VERSION") := by
          intro hc
          rw [h1] at hc
          exact absurd hc.2 (by decide)
        simp only [capFirst, if_neg hv, if_neg hn]
      · simp [capFirst, h2]
    · rename_i hskip
      have h2 : ¬ p.2 = "" := fun hc => hskip (Or.inr hc)
      by_cases hv : p.1 = "ver"
      · have hstep : (parse_query_field r p.1 p.2).capabilities =
            convert_stream_version_to_capabilities (strtoul0 p.2) := by
          rw [hv, pqf_caps_ver, if_pos h]
        rw [parseQuery_caps_frame q _ (by rw [hstep]; exact convert_no_invalid _), hstep]
        simp [capFirst, hv, h2]
      · by_cases hn : p.1 = "NETDATA_PROTOCOL_VERSION"
        · have hstep : (parse_query_field r p.1 p.2).capabilities =
              convert_stream_version_to_capabilities 1 := by
            rw [hn, pqf_caps_npv, if_pos h]
          rw [parseQuery_caps_frame q _ (by rw [hstep]; exact convert_no_invalid _), hstep]
          simp [capFirst, hn, h2, hv]
        · have hstep : (parse_query_field r p.1 p.2).capabilities = r.capabilities :=
            pqf_caps_of_ne r p.1 p.2 hv hn
          rw [ih _ (hstep ▸ h)]
          simp [capFirst, hv, hn, hstep]

theorem parseQuery_append (r : ReceiverState) (a b : List (String × String)) :
    parseQuery r (a ++ b) = parseQuery (parseQuery r a) b := by
  simp [parseQuery, List.foldl_append]

theorem capFirst_no_ver (q : List (String × String))
    (h : ∀ p ∈ q, p.1 = "ver" → p.2 = "") :
    capFirst q = none ∨ capFirst q = some (convert_stream_version_to_capabilities 1) := by
  induction q with
  | nil => exact Or.inl rfl
  | cons p q ih =>
    have hp := h p (List.mem_cons_self p q)
    have hrest := ih (fun x hx => h x (List.mem_cons_of_mem p hx))
    by_cases hv : p.1 = "ver"
    · have h2 : p.2 = "" := hp hv
      simpa [capFirst, h2] using hrest
    · by_cases hn : ¬ p.2 = "" ∧ p.1 = "NETDATA_PROTOCOL_VERSION"
      · simp [capFirst, hn]
      · have hcv : ¬ (¬ p.2 = "" ∧ p.1 = "ver") := fun hc => hv hc.2
        simpa [capFirst, hcv, hn] using hrest

theorem default_capabilities_caps (r : ReceiverState) :
    (default_capabilities r).capabilities =
      if r.capabilities &&& STREAM_CAP_INVALID ≠ 0 then
        convert_stream_version_to_capabilities 0
      else r.capabilities := by
  unfold default_capabilities
  split <;> rfl

/-- Claim C6: if no `ver` field is supplied in the query string, the
negotiated capability set equals the mapping of the oldest supported
version 0 (whether or not the legacy NETDATA_PROTOCOL_VERSION field is
also present); and if the legacy NETDATA_PROTOCOL_VERSION field occurs at a
point where no capability has been set yet, the negotiated set likewise
equals the mapping of the oldest supported version, since the version-1
mapping it installs coincides with the version-0 mapping. -/
theorem claim_C6 (env : Env) (q : List (String × String)) :
    ((∀ p ∈ q, p.1 = "ver" → p.2 = "") →
        (parsed_rpt env q).capabilities = convert_stream_version_to_capabilities 0) ∧
    (∀ (q1 : List (String × String)) (v : String) (q2 : List (String × String)),
        ¬ v = "" →
        (parseQuery (initial_receiver_state env.now_realtime env.now_monotonic) q1).capabilities
            &&& STREAM_CAP_INVALID ≠ 0 →
        (parsed_rpt env (q1 ++ ("NETDATA_PROTOCOL_VERSION", v) :: q2)).capabilities =
          convert_stream_version_to_capabilities 0) ∧
    convert_stream_version_to_capabilities 1 = convert_stream_version_to_capabilities 0 := by
  refine ⟨?_, ?_, rfl⟩
  · intro h
    unfold parsed_rpt
    rw [default_capabilities_caps,
      parseQuery_caps_of_invalid q _ (by simp [initial_receiver_state, STREAM_CAP_INVALID])]
    rcases capFirst_no_ver q h with hc | hc
    · rw [hc, Option.getD_none,
        if_pos (by simp [initial_receiver_state, STREAM_CAP_INVALID])]
    · rw [hc, Option.getD_some, if_neg (fun hcc => hcc (convert_no_invalid 1))]
      rfl
  · intro q1 v q2 hv hbit
    unfold parsed_rpt
    have hskip : ¬ (("NETDATA_PROTOCOL_VERSION", v).1 = "" ∨ ("NETDATA_PROTOCOL_VERSION", v).2 = "") := by
      intro hc
      rcases hc with hc | hc
      · simp at hc
      · exact hv hc
    have hstep : (parse_query_step
        (parseQuery (initial_receiver_state env.now_realtime env.now_monotonic) q1)
        ("NETDATA_PROTOCOL_VERSION", v)).capabilities =
        convert_stream_version_to_capabilities 1 := by
      unfold parse_query_step
      rw [if_neg hskip, pqf_caps_npv, if_pos hbit]
    have hcons : parseQuery (parseQuery (initial_receiver_state env.now_realtime env.now_monotonic) q1)
        (("NETDATA_PROTOCOL_VERSION", v) :: q2) =
        parseQuery (parse_query_step
          (parseQuery (initial_receiver_state env.now_realtime env.now_monotonic) q1)
          ("NETDATA_PROTOCOL_VERSION", v)) q2 := rfl
    have hall : (parseQuery (initial_receiver_state env.now_realtime env.now_monotonic)
        (q1 ++ ("NETDATA_PROTOCOL_VERSION", v) :: q2)).capabilities =
        convert_stream_version_to_capabilities 1 := by
      rw [parseQuery_append, hcons,
        parseQuery_caps_frame q2 _ (by rw [hstep]; exact convert_no_invalid 1), hstep]
    rw [default_capabilities_caps, hall]
    decide

/-- Claim C6 witness: the theorem applied at a concrete environment and
query, covering the empty query and a query carrying only the legacy
NETDATA_PROTOCOL_VERSION field. -/
theorem claim_C6_witness :
    (parsed_rpt env0 []).capabilities = convert_stream_version_to_capabilities 0 ∧
    (parsed_rpt env0 ([] ++ ("NETDATA_PROTOCOL_VERSION", "1") :: [])).capabilities =
      convert_stream_version_to_capabilities 0 :=
  ⟨(claim_C6 env0 []).1 (by simp),
   (claim_C6 env0 []).2.1 [] "1" [] (by decide) (by decide)⟩

/-- Claim C7 (amended): for the string-valued fields key, hostname,
registry_hostname, machine_guid, os, timezone and abbrev_timezone the
first valid occurrence in the query string determines the descriptor
attribute and later duplicates are ignored; for `ver` the first
capability-setting occurrence (ver, or the legacy
NETDATA_PROTOCOL_VERSION) wins while capabilities are still unset; but
for the numeric fields update_every, utc_offset, hops, ml_capable,
ml_enabled and mc_version every occurrence overwrites the attribute, so
the last valid occurrence determines the value. -/
theorem claim_C7_amended (ts tm : Int) (q : List (String × String)) :
    (parseQuery (initial_receiver_state ts tm) q).key = firstWins "key" q ∧
    (parseQuery (initial_receiver_state ts tm) q).hostname = firstWins "hostname" q ∧
    (parseQuery (initial_receiver_state ts tm) q).registry_hostname =
      firstWins "registry_hostname" q ∧
    (parseQuery (initial_receiver_state ts tm) q).machine_guid = firstWins "machine_guid" q ∧
    (parseQuery (initial_receiver_state ts tm) q).os = firstWins "os" q ∧
    (parseQuery (initial_receiver_state ts tm) q).timezone = firstWins "timezone" q ∧
    (parseQuery (initial_receiver_state ts tm) q).abbrev_timezone =
      firstWins "abbrev_timezone" q ∧
    (parseQuery (initial_receiver_state ts tm) q).config_update_every =
      (match lastWins "update_every" q with
       | some v => Int.ofNat (strtoul0 v)
       | none => default_rrd_update_every) ∧
    (parseQuery (initial_receiver_state ts tm) q).utc_offset =
      (match lastWins "utc_offset" q with
       | some v => strtol0 v
       | none => 0) ∧
    (parseQuery (initial_receiver_state ts tm) q).hops =
      (match lastWins "hops" q with
       | some v => strtol0 v
       | none => 1) ∧
    (parseQuery (initial_receiver_state ts tm) q).system_info.hops =
      (match lastWins "hops" q with
       | some v => strtol0 v
       | none => 1) ∧
    (parseQuery (initial_receiver_state ts tm) q).system_info.ml_capable =
      (match lastWins "ml_capable" q with
       | some v => strtoul0 v
       | none => 0) ∧
    (parseQuery (initial_receiver_state ts tm) q).system_info.ml_enabled =
      (match lastWins "ml_enabled" q with
       | some v => strtoul0 v
       | none => 0) ∧
    (parseQuery (initial_receiver_state ts tm) q).system_info.mc_version =
      (match lastWins "mc_version" q with
       | some v => strtoul0 v
       | none => 0) ∧
    (parseQuery (initial_receiver_state ts tm) q).capabilities =
      (capFirst q).getD STREAM_CAP_INVALID := by
  refine ⟨?_, ?_, ?_, ?_, ?_, ?_, ?_, ?_, ?_, ?_, ?_, ?_, ?_, ?_, ?_⟩
  · exact parseQuery_firstWins (fun s => s.key) "key" (by decide)
      pqf_key_of_ne pqf_key_self q _
  · exact parseQuery_firstWins (fun s => s.hostname) "hostname" (by decide)
      pqf_hostname_of_ne pqf_hostname_self q _
  · exact parseQuery_firstWins (fun s => s.registry_hostname) "registry_hostname" (by decide)
      pqf_registry_hostname_of_ne pqf_registry_hostname_self q _
  · exact parseQuery_firstWins (fun s => s.machine_guid) "machine_guid" (by decide)
      pqf_machine_guid_of_ne pqf_machine_guid_self q _
  · exact parseQuery_firstWins (fun s => s.os) "os" (by decide)
      pqf_os_of_ne pqf_os_self q _
  · exact parseQuery_firstWins (fun s => s.timezone) "timezone" (by decide)
      pqf_timezone_of_ne pqf_timezone_self q _
  · exact parseQuery_firstWins (fun s => s.abbrev_timezone) "abbrev_timezone" (by decide)
      pqf_abbrev_timezone_of_ne pqf_abbrev_timezone_self q _
  · exact parseQuery_lastWins (fun s => s.config_update_every) "update_every"
      (fun v => Int.ofNat (strtoul0 v)) (by decide)
      pqf_update_every_of_ne pqf_update_every_self q _
  · exact parseQuery_lastWins (fun s => s.utc_offset) "utc_offset" strtol0 (by decide)
      pqf_utc_offset_of_ne pqf_utc_offset_self q _
  · exact parseQuery_lastWins (fun s => s.hops) "hops" strtol0 (by decide)
      pqf_hops_of_ne pqf_hops_self q _
  · exact parseQuery_lastWins (fun s => s.system_info.hops) "hops" strtol0 (by decide)
      pqf_si_hops_of_ne pqf_si_hops_self q _
  · exact parseQuery_lastWins (fun s => s.system_info.ml_capable) "ml_capable" strtoul0
      (by decide) pqf_ml_capable_of_ne pqf_ml_capable_self q _
  · exact parseQuery_lastWins (fun s => s.system_info.ml_enabled) "ml_enabled" strtoul0
      (by decide) pqf_ml_enabled_of_ne pqf_ml_enabled_self q _
  · exact parseQuery_lastWins (fun s => s.system_info.mc_version) "mc_version" strtoul0
      (by decide) pqf_mc_version_of_ne pqf_mc_version_self q _
  · exact parseQuery_caps_of_invalid q _ (by simp [initial_receiver_state, STREAM_CAP_INVALID])

/-- Claim C7 counterexample: the claim says the first occurrence of
`update_every` wins and later duplicates are ignored; on the query
`update_every=1&update_every=2` the parsed value is 2, while the
single-occurrence query `update_every=1` yields 1, so the later duplicate
was not ignored. -/
theorem claim_C7_counterexample :
    (parseQuery (initial_receiver_state 0 0)
        [("update_every", "1"), ("update_every", "2")]).config_update_every = 2 ∧
    (parseQuery (initial_receiver_state 0 0)
        [("update_every", "1")]).config_update_every = 1 ∧
    (2 : Int) ≠ 1 :=
  ⟨by decide, by decide, by decide⟩

-- ------------------------------------------------------------------
-- Plumbing lemmas about the accept pipeline.

theorem registry_default_key (r : ReceiverState) : (registry_default r).key = r.key := by
  unfold registry_default
  split <;> rfl

theorem registry_default_hostname (r : ReceiverState) :
    (registry_default r).hostname = r.hostname := by
  unfold registry_default
  split <;> rfl

theorem registry_default_machine_guid (r : ReceiverState) :
    (registry_default r).machine_guid = r.machine_guid := by
  unfold registry_default
  split <;> rfl

theorem parsed_rpt_key (env : Env) (q : List (String × String)) :
    (parsed_rpt env q).key = firstWins "key" q := by
  unfold parsed_rpt default_capabilities
  have h := parseQuery_firstWins (fun s => s.key) "key" (by decide)
    pqf_key_of_ne pqf_key_self q (initial_receiver_state env.now_realtime env.now_monotonic)
  split <;> exact h

theorem parsed_rpt_hostname (env : Env) (q : List (String × String)) :
    (parsed_rpt env q).hostname = firstWins "hostname" q := by
  unfold parsed_rpt default_capabilities
  have h := parseQuery_firstWins (fun s => s.hostname) "hostname" (by decide)
    pqf_hostname_of_ne pqf_hostname_self q
    (initial_receiver_state env.now_realtime env.now_monotonic)
  split <;> exact h

theorem parsed_rpt_registry_hostname (env : Env) (q : List (String × String)) :
    (parsed_rpt env q).registry_hostname = firstWins "registry_hostname" q := by
  unfold parsed_rpt default_capabilities
  have h := parseQuery_firstWins (fun s => s.registry_hostname) "registry_hostname" (by decide)
    pqf_registry_hostname_of_ne pqf_registry_hostname_self q
    (initial_receiver_state env.now_realtime env.now_monotonic)
  split <;> exact h

theorem parsed_rpt_machine_guid (env : Env) (q : List (String × String)) :
    (parsed_rpt env q).machine_guid = firstWins "machine_guid" q := by
  unfold parsed_rpt default_capabilities
  have h := parseQuery_firstWins (fun s => s.machine_guid) "machine_guid" (by decide)
    pqf_machine_guid_of_ne pqf_machine_guid_self q
    (initial_receiver_state env.now_realtime env.now_monotonic)
  split <;> exact h

theorem firstWins_ne_empty (f : String) (q : List (String × String)) (w : String)
    (h : firstWins f q = some w) : ¬ w = "" := by
  induction q with
  | nil => simp [firstWins] at h
  | cons p q ih =>
    by_cases hc : p.1 = f ∧ ¬ p.2 = ""
    · rw [firstWins, if_pos hc] at h
      obtain rfl : p.2 = w := Option.some_injective _ h
      exact hc.2
    · rw [firstWins, if_neg hc] at h
      exact ih h

theorem optEmptyStr_false (w : String) (h : ¬ w = "") : optEmptyStr (some w) = false := by
  simp [optEmptyStr, h]

theorem perm_denied_final_rpt (env : Env) (r : ReceiverState) (status msg : String) :
    (stream_receiver_response_permission_denied env r status msg).final_rpt = r := rfl

theorem dedup_final_rpt (env : Env) (r : ReceiverState) (last2 : Int) :
    (stream_receiver_dedup_and_dispatch env r last2).final_rpt = r := by
  unfold stream_receiver_dedup_and_dispatch
  simp only [apply_ite (fun a : AcceptResult => a.final_rpt), ite_self]

theorem admission_final_rpt (env : Env) (r : ReceiverState) :
    (stream_receiver_admission env r).final_rpt = r := by
  unfold stream_receiver_admission
  simp only [apply_ite (fun a : AcceptResult => a.final_rpt), dedup_final_rpt, ite_self]

theorem accept_of_pass (env : Env) (q : List (String × String))
    (hs : env.service_running = true)
    (hv : validation_passes env (parsed_rpt env q) = true) :
    stream_receiver_accept_connection env q =
      stream_receiver_admission env (registry_default (parsed_rpt env q)) := by
  have hv2 := hv
  simp only [validation_passes, validation_checks, List.all_cons, List.all_nil,
    Bool.and_eq_true, Bool.not_eq_true'] at hv2
  obtain ⟨h1, h2, h3, h4, h5, h6, h7, h8, h9, h10, h11, -⟩ := hv2
  simp only [stream_receiver_accept_connection, hs, h1, h2, h3, h4, h5, h6, h7, h8, h9, h10, h11,
    registry_default_key, registry_default_hostname, registry_default_machine_guid,
    Bool.false_eq_true, Bool.true_eq_false, if_false, ite_false, ite_true, if_true]

theorem admission_reaches_dedup (env : Env) (r : ReceiverState)
    (hl : ¬ r.machine_guid.getD "" = env.localhost_machine_guid)
    (hg : rate_gate_passes env = true) :
    ∃ last2, stream_receiver_admission env r = stream_receiver_dedup_and_dispatch env r last2 := by
  unfold rate_gate_passes at hg
  unfold stream_receiver_admission
  rw [if_neg hl]
  by_cases hr : env.web_client_streaming_rate_t > 0
  · rw [if_pos hr] at hg ⊢
    by_cases h0 : env.last_stream_accepted_t = 0
    · simp only [h0, ite_true, if_true] at hg ⊢
      by_cases hlt : env.now_realtime - env.now_realtime < env.web_client_streaming_rate_t
      · rw [if_pos hlt] at hg
        exact absurd hg Bool.false_ne_true
      · rw [if_neg hlt]
        exact ⟨env.now_realtime, rfl⟩
    · simp only [h0, ite_false, if_false] at hg ⊢
      by_cases hlt : env.now_realtime - env.last_stream_accepted_t < env.web_client_streaming_rate_t
      · rw [if_pos hlt] at hg
        exact absurd hg Bool.false_ne_true
      · rw [if_neg hlt]
        exact ⟨env.now_realtime, rfl⟩
  · rw [if_neg hr]
    exact ⟨env.last_stream_accepted_t, rfl⟩

/-- Claim C2: when a non-archived host for the attempt's machine identity
has an attached receiver whose age (now minus last_message_time) is below
30 time units, the attempt is rejected with the conflict code and the
"already streaming" body, the existing attachment is not displaced (it is
still the old receiver, and no stop signal was sent), and the transport
is not taken over, so the caller retains it. -/
theorem claim_C2 (env : Env) (q : List (String × String)) (t : Int)
    (hs : env.service_running = true)
    (hv : validation_passes env (parsed_rpt env q) = true)
    (hl : ¬ (registry_default (parsed_rpt env q)).machine_guid.getD "" =
      env.localhost_machine_guid)
    (hg : rate_gate_passes env = true)
    (hh : env.host = some { archived := false, receiver_last_msg_t := some t })
    (hage : env.now_monotonic - t < 30) :
    (stream_receiver_accept_connection env q).code = HTTP_RESP_CONFLICT ∧
    (stream_receiver_accept_connection env q).response_body =
      START_STREAMING_ERROR_ALREADY_STREAMING ∧
    (stream_receiver_accept_connection env q).takeover = false ∧
    (stream_receiver_accept_connection env q).freed = true ∧
    (stream_receiver_accept_connection env q).enqueued = false ∧
    (stream_receiver_accept_connection env q).stop_signaled = false ∧
    (stream_receiver_accept_connection env q).attachment = some RcvTag.old := by
  rw [accept_of_pass env q hs hv]
  obtain ⟨last2, heq⟩ := admission_reaches_dedup env _ hl hg
  rw [heq]
  simp [stream_receiver_dedup_and_dispatch, hh, hage, initialAttachment]

/-- Claim C8: when validation passes and the declared machine identity
equals the local node's own identity, the transport is taken over, the
single "same as local host" message is the only raw-transport send, the
descriptor is freed, nothing is enqueued, and the caller receives the
OK-class result rather than a policy rejection. -/
theorem claim_C8 (env : Env) (q : List (String × String))
    (hs : env.service_running = true)
    (hv : validation_passes env (parsed_rpt env q) = true)
    (hl : (registry_default (parsed_rpt env q)).machine_guid.getD "" =
      env.localhost_machine_guid) :
    (stream_receiver_accept_connection env q).code = HTTP_RESP_OK ∧
    (stream_receiver_accept_connection env q).takeover = true ∧
    (stream_receiver_accept_connection env q).raw_sends =
      [START_STREAMING_ERROR_SAME_LOCALHOST] ∧
    (stream_receiver_accept_connection env q).freed = true ∧
    (stream_receiver_accept_connection env q).enqueued = false ∧
    (stream_receiver_accept_connection env q).status = some STREAM_STATUS_LOCALHOST := by
  rw [accept_of_pass env q hs hv]
  simp [stream_receiver_admission, hl]

/-- Claim C1: when a non-archived host for the attempt's machine identity
has an attached receiver whose age is at least 30 time units, the stale
receiver is signaled to stop and the attempt waits; if the stop-and-wait
succeeds the attempt proceeds to admission and, after a successful
handshake, the host has exactly one attached receiver, namely the new
one; if the stop-and-wait does not succeed, the attempt is rejected as
still-working with the conflict code and the old receiver stays
attached. -/
theorem claim_C1 (env : Env) (q : List (String × String)) (t : Int)
    (hs : env.service_running = true)
    (hv : validation_passes env (parsed_rpt env q) = true)
    (hl : ¬ (registry_default (parsed_rpt env q)).machine_guid.getD "" =
      env.localhost_machine_guid)
    (hg : rate_gate_passes env = true)
    (hh : env.host = some { archived := false, receiver_last_msg_t := some t })
    (hage : 30 ≤ env.now_monotonic - t)
    (hp : env.pending_context_load = false)
    (hc : env.children_accepted = true)
    (hb : env.bytes_sent =
      ((initial_response (registry_default (parsed_rpt env q))).length : Int)) :
    (stream_receiver_accept_connection env q).stop_signaled = true ∧
    (env.stop_and_wait_ok = true →
      (stream_receiver_accept_connection env q).code = HTTP_RESP_OK ∧
      (stream_receiver_accept_connection env q).attachment = some RcvTag.new ∧
      (stream_receiver_accept_connection env q).enqueued = true ∧
      (stream_receiver_accept_connection env q).takeover = true ∧
      (stream_receiver_accept_connection env q).status = some STREAM_STATUS_CONNECTED) ∧
    (env.stop_and_wait_ok = false →
      (stream_receiver_accept_connection env q).code = HTTP_RESP_CONFLICT ∧
      (stream_receiver_accept_connection env q).response_body =
        START_STREAMING_ERROR_ALREADY_STREAMING ∧
      (stream_receiver_accept_connection env q).freed = true ∧
      (stream_receiver_accept_connection env q).takeover = false ∧
      (stream_receiver_accept_connection env q).attachment = some RcvTag.old) := by
  obtain ⟨last2, heq⟩ := admission_reaches_dedup env _ hl hg
  have hA : stream_receiver_accept_connection env q =
      stream_receiver_dedup_and_dispatch env (registry_default (parsed_rpt env q)) last2 := by
    rw [accept_of_pass env q hs hv, heq]
  have hnl : ¬ (env.now_monotonic - t < 30) := by omega
  refine ⟨?_, fun hsw => ?_, fun hsw => ?_⟩
  · rw [hA]
    simp only [stream_receiver_dedup_and_dispatch, hh, hnl,
      apply_ite (fun a : AcceptResult => a.stop_signaled), ite_self]
    simp [hnl]
  · rw [hA]
    simp [stream_receiver_dedup_and_dispatch, stream_receiver_send_first_response, hh, hnl, hsw,
      hp, hc, hb]
  · rw [hA]
    simp [stream_receiver_dedup_and_dispatch, hh, hnl, hsw, initialAttachment]

/-- Claim C4: with a configured rate interval greater than zero and an
already-established process-wide timestamp, an attempt reaching the
rate-limit stage is rejected with the capacity-denial outcome when the
elapsed time since the timestamp is below the interval (and the timestamp
is not changed), and otherwise the timestamp is updated to now and the
attempt proceeds to the duplicate-detection and admission stage. -/
theorem claim_C4 (env : Env) (q : List (String × String))
    (hs : env.service_running = true)
    (hv : validation_passes env (parsed_rpt env q) = true)
    (hl : ¬ (registry_default (parsed_rpt env q)).machine_guid.getD "" =
      env.localhost_machine_guid)
    (hrate : env.web_client_streaming_rate_t > 0)
    (hlast : ¬ env.last_stream_accepted_t = 0) :
    (env.now_realtime - env.last_stream_accepted_t < env.web_client_streaming_rate_t →
      (stream_receiver_accept_connection env q).code = HTTP_RESP_SERVICE_UNAVAILABLE ∧
      (stream_receiver_accept_connection env q).response_body =
        START_STREAMING_ERROR_BUSY_TRY_LATER ∧
      (stream_receiver_accept_connection env q).takeover = false ∧
      (stream_receiver_accept_connection env q).freed = true ∧
      (stream_receiver_accept_connection env q).status = some STREAM_STATUS_RATE_LIMIT ∧
      (stream_receiver_accept_connection env q).last_accepted_t =
        env.last_stream_accepted_t) ∧
    (¬ (env.now_realtime - env.last_stream_accepted_t < env.web_client_streaming_rate_t) →
      stream_receiver_accept_connection env q =
        stream_receiver_dedup_and_dispatch env (registry_default (parsed_rpt env q))
          env.now_realtime) := by
  rw [accept_of_pass env q hs hv]
  unfold stream_receiver_admission
  rw [if_neg hl, if_pos hrate]
  simp only [hlast, ite_false, if_false]
  refine ⟨fun hlt => ?_, fun hge => ?_⟩
  · rw [if_pos hlt]
    simp
  · rw [if_neg hge]

/-- Claim C10: with a configured rate interval greater than zero and the
process-wide timestamp still in its initial zero state, the first attempt
to reach the rate-limit stage is itself rejected with the capacity-denial
outcome (the lazy initialization sets the timestamp to now before the
comparison), yet that rejected attempt establishes the timestamp: a later
attempt that carries the established timestamp and runs at least one full
interval after it passes the gate and proceeds to admission. -/
theorem claim_C10 (env env2 : Env) (q : List (String × String))
    (hs : env.service_running = true)
    (hv : validation_passes env (parsed_rpt env q) = true)
    (hl : ¬ (registry_default (parsed_rpt env q)).machine_guid.getD "" =
      env.localhost_machine_guid)
    (hrate : env.web_client_streaming_rate_t > 0)
    (hzero : env.last_stream_accepted_t = 0)
    (hs2 : env2.service_running = true)
    (hv2 : validation_passes env2 (parsed_rpt env2 q) = true)
    (hl2 : ¬ (registry_default (parsed_rpt env2 q)).machine_guid.getD "" =
      env2.localhost_machine_guid)
    (hrate2 : env2.web_client_streaming_rate_t > 0)
    (hlast2 : env2.last_stream_accepted_t = env.now_realtime)
    (hnow : ¬ env.now_realtime = 0)
    (hgap : env.now_realtime + env2.web_client_streaming_rate_t ≤ env2.now_realtime) :
    (stream_receiver_accept_connection env q).code = HTTP_RESP_SERVICE_UNAVAILABLE ∧
    (stream_receiver_accept_connection env q).response_body =
      START_STREAMING_ERROR_BUSY_TRY_LATER ∧
    (stream_receiver_accept_connection env q).takeover = false ∧
    (stream_receiver_accept_connection env q).freed = true ∧
    (stream_receiver_accept_connection env q).status = some STREAM_STATUS_RATE_LIMIT ∧
    (stream_receiver_accept_connection env q).last_accepted_t = env.now_realtime ∧
    stream_receiver_accept_connection env2 q =
      stream_receiver_dedup_and_dispatch env2 (registry_default (parsed_rpt env2 q))
        env2.now_realtime := by
  have hlt0 : env.now_realtime - env.now_realtime < env.web_client_streaming_rate_t := by omega
  have hfirst : (stream_receiver_accept_connection env q).code =
        HTTP_RESP_SERVICE_UNAVAILABLE ∧
      (stream_receiver_accept_connection env q).response_body =
        START_STREAMING_ERROR_BUSY_TRY_LATER ∧
      (stream_receiver_accept_connection env q).takeover = false ∧
      (stream_receiver_accept_connection env q).freed = true ∧
      (stream_receiver_accept_connection env q).status = some STREAM_STATUS_RATE_LIMIT ∧
      (stream_receiver_accept_connection env q).last_accepted_t = env.now_realtime := by
    rw [accept_of_pass env q hs hv]
    unfold stream_receiver_admission
    rw [if_neg hl, if_pos hrate]
    simp only [hzero, ite_true, if_true]
    rw [if_pos hlt0]
    simp
  refine ⟨hfirst.1, hfirst.2.1, hfirst.2.2.1, hfirst.2.2.2.1, hfirst.2.2.2.2.1,
    hfirst.2.2.2.2.2, ?_⟩
  rw [accept_of_pass env2 q hs2 hv2]
  unfold stream_receiver_admission
  rw [if_neg hl2, if_pos hrate2]
  have h02 : ¬ env2.last_stream_accepted_t = 0 := by rw [hlast2]; exact hnow
  simp only [h02, ite_false, if_false]
  rw [if_neg (by rw [hlast2]; omega)]

/-- Claim C5: after admission and transport takeover, a short write of the
single handshake reply frame is fatal: the host's receiver attachment is
released (the final attachment is empty), the descriptor is freed and
nothing is enqueued, and exactly one reply frame was sent (no retry). -/
theorem claim_C5 (env : Env) (q : List (String × String))
    (hs : env.service_running = true)
    (hv : validation_passes env (parsed_rpt env q) = true)
    (hl : ¬ (registry_default (parsed_rpt env q)).machine_guid.getD "" =
      env.localhost_machine_guid)
    (hg : rate_gate_passes env = true)
    (hh : env.host = some { archived := false, receiver_last_msg_t := none })
    (hp : env.pending_context_load = false)
    (hc : env.children_accepted = true)
    (hb : ¬ env.bytes_sent =
      ((initial_response (registry_default (parsed_rpt env q))).length : Int)) :
    (stream_receiver_accept_connection env q).takeover = true ∧
    (stream_receiver_accept_connection env q).freed = true ∧
    (stream_receiver_accept_connection env q).enqueued = false ∧
    (stream_receiver_accept_connection env q).attachment = none ∧
    (stream_receiver_accept_connection env q).raw_sends =
      [initial_response (registry_default (parsed_rpt env q))] ∧
    (stream_receiver_accept_connection env q).status = some STREAM_STATUS_CANT_REPLY ∧
    (stream_receiver_accept_connection env q).code = HTTP_RESP_OK := by
  obtain ⟨last2, heq⟩ := admission_reaches_dedup env _ hl hg
  have hA : stream_receiver_accept_connection env q =
      stream_receiver_dedup_and_dispatch env (registry_default (parsed_rpt env q)) last2 := by
    rw [accept_of_pass env q hs hv, heq]
  rw [hA]
  simp [stream_receiver_dedup_and_dispatch, stream_receiver_send_first_response, hh, hp, hc, hb,
    initialAttachment]

/-- Claim C3: the eleven identity/key validation checks run strictly in
the listed order and each short-circuits: whenever any of them fails, the
outcome of the whole accept call is determined by the FIRST failing check
in that order (`List.find?` over `validation_checks`), its status tag and
log message are the ones recorded, and every such failure produces the
identical generic "not permitted" body with the unauthorized status code,
a freed descriptor, and no transport ownership transfer. -/
theorem claim_C3 (env : Env) (q : List (String × String)) (c : Bool × String × String)
    (hs : env.service_running = true)
    (hfind : (validation_checks env (parsed_rpt env q)).find? (fun t => !t.1) = some c) :
    (stream_receiver_accept_connection env q).code = HTTP_RESP_UNAUTHORIZED ∧
    (stream_receiver_accept_connection env q).response_body =
      START_STREAMING_ERROR_NOT_PERMITTED ∧
    (stream_receiver_accept_connection env q).takeover = false ∧
    (stream_receiver_accept_connection env q).freed = true ∧
    (stream_receiver_accept_connection env q).raw_sends = [] ∧
    (stream_receiver_accept_connection env q).status = some c.2.1 ∧
    (stream_receiver_accept_connection env q).log = some c.2.2 := by
  by_cases a1 : optEmptyStr (parsed_rpt env q).key = true
  · simp only [validation_checks, List.find?, a1, Bool.not_true, Bool.not_false] at hfind
    injection hfind with hfind
    subst hfind
    simp [stream_receiver_accept_connection, stream_receiver_response_permission_denied, hs, a1]
  · by_cases a2 : optEmptyStr (parsed_rpt env q).hostname = true
    · simp only [validation_checks, List.find?, Bool.not_eq_true, a1, a2, Bool.not_true,
        Bool.not_false] at hfind
      injection hfind with hfind
      subst hfind
      simp [stream_receiver_accept_connection, stream_receiver_response_permission_denied,
        hs, a1, a2]
    · by_cases a3 : optEmptyStr (parsed_rpt env q).machine_guid = true
      · simp only [validation_checks, List.find?, Bool.not_eq_true, a1, a2, a3, Bool.not_true,
          Bool.not_false] at hfind
        injection hfind with hfind
        subst hfind
        simp [stream_receiver_accept_connection, stream_receiver_response_permission_denied,
          hs, a1, a2, a3, registry_default_machine_guid]
      · by_cases a4 : env.valid_guid ((parsed_rpt env q).key.getD "") = true
        · by_cases a5 : env.valid_guid ((parsed_rpt env q).machine_guid.getD "") = true
          · by_cases a6 : env.is_key_type ((parsed_rpt env q).key.getD "") "api" = true
            · by_cases a7 : env.api_key_is_enabled ((parsed_rpt env q).key.getD "") false = true
              · by_cases a8 : env.api_key_allows_client ((parsed_rpt env q).key.getD "")
                    env.client_ip = true
                · by_cases a9 : env.is_key_type ((parsed_rpt env q).machine_guid.getD "")
                      "machine" = true
                  · by_cases a10 : env.api_key_is_enabled
                        ((parsed_rpt env q).machine_guid.getD "") true = true
                    · by_cases a11 : env.api_key_allows_client
                          ((parsed_rpt env q).machine_guid.getD "") env.client_ip = true
                      · simp only [validation_checks, List.find?, Bool.not_eq_true, a1, a2, a3,
                          a4, a5, a6, a7, a8, a9, a10, a11, Bool.not_true,
                          Bool.not_false] at hfind
                        exact absurd hfind (by simp)
                      · simp only [validation_checks, List.find?, Bool.not_eq_true, a1, a2, a3,
                          a4, a5, a6, a7, a8, a9, a10, a11, Bool.not_true,
                          Bool.not_false] at hfind
                        injection hfind with hfind
                        subst hfind
                        simp [stream_receiver_accept_connection,
                          stream_receiver_response_permission_denied, hs, a1, a2, a3, a4, a5,
                          a6, a7, a8, a9, a10, a11, registry_default_key,
                          registry_default_hostname, registry_default_machine_guid]
                    · simp only [validation_checks, List.find?, Bool.not_eq_true, a1, a2, a3,
                        a4, a5, a6, a7, a8, a9, a10, Bool.not_true, Bool.not_false] at hfind
                      injection hfind with hfind
                      subst hfind
                      simp [stream_receiver_accept_connection,
                        stream_receiver_response_permission_denied, hs, a1, a2, a3, a4, a5, a6,
                        a7, a8, a9, a10, registry_default_key, registry_default_hostname,
                        registry_default_machine_guid]
                  · simp only [validation_checks, List.find?, Bool.not_eq_true, a1, a2, a3, a4,
                      a5, a6, a7, a8, a9, Bool.not_true, Bool.not_false] at hfind
                    injection hfind with hfind
                    subst hfind
                    simp [stream_receiver_accept_connection,
                      stream_receiver_response_permission_denied, hs, a1, a2, a3, a4, a5, a6,
                      a7, a8, a9, registry_default_key, registry_default_hostname,
                      registry_default_machine_guid]
                · simp only [validation_checks, List.find?, Bool.not_eq_true, a1, a2, a3, a4,
                    a5, a6, a7, a8, Bool.not_true, Bool.not_false] at hfind
                  injection hfind with hfind
                  subst hfind
                  simp [stream_receiver_accept_connection,
                    stream_receiver_response_permission_denied, hs, a1, a2, a3, a4, a5, a6, a7,
                    a8, registry_default_key, registry_default_hostname,
                    registry_default_machine_guid]
              · simp only [validation_checks, List.find?, Bool.not_eq_true, a1, a2, a3, a4, a5,
                  a6, a7, Bool.not_true, Bool.not_false] at hfind
                injection hfind with hfind
                subst hfind
                simp [stream_receiver_accept_connection,
                  stream_receiver_response_permission_denied, hs, a1, a2, a3, a4, a5, a6, a7,
                  registry_default_key, registry_default_hostname, registry_default_machine_guid]
            · simp only [validation_checks, List.find?, Bool.not_eq_true, a1, a2, a3, a4, a5,
                a6, Bool.not_true, Bool.not_false] at hfind
              injection hfind with hfind
              subst hfind
              simp [stream_receiver_accept_connection,
                stream_receiver_response_permission_denied, hs, a1, a2, a3, a4, a5, a6,
                registry_default_key, registry_default_hostname, registry_default_machine_guid]
          · simp only [validation_checks, List.find?, Bool.not_eq_true, a1, a2, a3, a4, a5,
              Bool.not_true, Bool.not_false] at hfind
            injection hfind with hfind
            subst hfind
            simp [stream_receiver_accept_connection,
              stream_receiver_response_permission_denied, hs, a1, a2, a3, a4, a5,
              registry_default_key, registry_default_hostname, registry_default_machine_guid]
        · simp only [validation_checks, List.find?, Bool.not_eq_true, a1, a2, a3, a4,
            Bool.not_true, Bool.not_false] at hfind
          injection hfind with hfind
          subst hfind
          simp [stream_receiver_accept_connection,
            stream_receiver_response_permission_denied, hs, a1, a2, a3, a4,
            registry_default_key, registry_default_hostname, registry_default_machine_guid]

/-- Claim C9 (amended): for every request that supplies a nonempty key
and a nonempty hostname but never supplies registry_hostname, the
descriptor's registry_hostname equals the supplied hostname from the
defaulting step onward — in particular in the descriptor's final state,
whatever the outcome of the remaining checks.  (The key must be nonempty
because the defaulting happens after the empty-key and empty-hostname
rejections; see the counterexample.) -/
theorem claim_C9_amended (env : Env) (q : List (String × String)) (k h : String)
    (hs : env.service_running = true)
    (hk : firstWins "key" q = some k)
    (hh : firstWins "hostname" q = some h)
    (hr : firstWins "registry_hostname" q = none) :
    (stream_receiver_accept_connection env q).final_rpt.registry_hostname = some h := by
  have hkne := firstWins_ne_empty "key" q k hk
  have hhne := firstWins_ne_empty "hostname" q h hh
  have h1 : optEmptyStr (parsed_rpt env q).key = false := by
    rw [parsed_rpt_key, hk]
    exact optEmptyStr_false k hkne
  have h2 : optEmptyStr (parsed_rpt env q).hostname = false := by
    rw [parsed_rpt_hostname, hh]
    exact optEmptyStr_false h hhne
  have h3 : (registry_default (parsed_rpt env q)).registry_hostname = some h := by
    unfold registry_default
    rw [if_pos (by rw [parsed_rpt_registry_hostname]; exact hr)]
    show (parsed_rpt env q).hostname = some h
    rw [parsed_rpt_hostname]
    exact hh
  simp only [stream_receiver_accept_connection, stream_receiver_response_permission_denied,
    hs, h1, h2, Bool.false_eq_true, Bool.true_eq_false, if_false, ite_false, if_true, ite_true,
    apply_ite (fun a : AcceptResult => a.final_rpt.registry_hostname), admission_final_rpt,
    h3, ite_self]

/-- Claim C9 counterexample: a request supplying only `hostname=alpha`
(and no key) is rejected at the empty-key check, which runs before the
registry_hostname defaulting, so the descriptor ends with
registry_hostname unset rather than "alpha". -/
theorem claim_C9_counterexample :
    (stream_receiver_accept_connection env0 [("hostname", "alpha")]).final_rpt.hostname =
      some "alpha" ∧
    (stream_receiver_accept_connection env0
        [("hostname", "alpha")]).final_rpt.registry_hostname = none ∧
    (stream_receiver_accept_connection env0 [("hostname", "alpha")]).code =
      HTTP_RESP_UNAUTHORIZED ∧
    (stream_receiver_accept_connection env0 [("hostname", "alpha")]).status =
      some STREAM_STATUS_NO_API_KEY :=
  ⟨by decide, by decide, by decide, by decide⟩

/-- Claim C9 witness: the amended theorem applied at a concrete request
supplying key, hostname and machine identity but no registry_hostname. -/
theorem claim_C9_witness :
    (stream_receiver_accept_connection env0 q_basic).final_rpt.registry_hostname = some "h" :=
  claim_C9_amended env0 q_basic "K" "h" (by decide) (by decide) (by decide) (by decide)

/-- Claim C1 witness: the theorem applied at a host whose attached
receiver is exactly 30 units old, once with a stop-and-wait that succeeds
(attempt admitted, new receiver attached) and once with one that fails
(attempt rejected as still-working, old receiver still attached). -/
theorem claim_C1_witness :
    ((stream_receiver_accept_connection env_stale q_basic).stop_signaled = true ∧
     (stream_receiver_accept_connection env_stale q_basic).code = HTTP_RESP_OK ∧
     (stream_receiver_accept_connection env_stale q_basic).attachment = some RcvTag.new ∧
     (stream_receiver_accept_connection env_stale q_basic).enqueued = true) ∧
    ((stream_receiver_accept_connection env_stale_fail q_basic).stop_signaled = true ∧
     (stream_receiver_accept_connection env_stale_fail q_basic).code = HTTP_RESP_CONFLICT ∧
     (stream_receiver_accept_connection env_stale_fail q_basic).attachment =
       some RcvTag.old) := by
  have h1 := claim_C1 env_stale q_basic 470 (by decide) (by decide) (by decide) (by decide)
    rfl (by decide) (by decide) (by decide) (by decide)
  have h2 := claim_C1 env_stale_fail q_basic 470 (by decide) (by decide) (by decide)
    (by decide) rfl (by decide) (by decide) (by decide) (by decide)
  refine ⟨⟨h1.1, (h1.2.1 rfl).1, (h1.2.1 rfl).2.1, (h1.2.1 rfl).2.2.1⟩,
    ⟨h2.1, (h2.2.2 rfl).1, (h2.2.2 rfl).2.2.2.2⟩⟩

/-- Claim C2 witness: the theorem applied at a host whose attached
receiver is 20 units old. -/
theorem claim_C2_witness :
    (stream_receiver_accept_connection env_working q_basic).code = HTTP_RESP_CONFLICT ∧
    (stream_receiver_accept_connection env_working q_basic).response_body =
      START_STREAMING_ERROR_ALREADY_STREAMING ∧
    (stream_receiver_accept_connection env_working q_basic).takeover = false ∧
    (stream_receiver_accept_connection env_working q_basic).freed = true ∧
    (stream_receiver_accept_connection env_working q_basic).enqueued = false ∧
    (stream_receiver_accept_connection env_working q_basic).stop_signaled = false ∧
    (stream_receiver_accept_connection env_working q_basic).attachment = some RcvTag.old :=
  claim_C2 env_working q_basic 480 (by decide) (by decide) (by decide) (by decide) rfl
    (by decide)

/-- Claim C3 witness: the theorem applied at an environment whose key
policy classifies every identifier as a machine identifier, so the sixth
check (key category) is the first to fail; the result carries that
check's status and message with the generic denial. -/
theorem claim_C3_witness :
    (stream_receiver_accept_connection env_keytype q_basic).code = HTTP_RESP_UNAUTHORIZED ∧
    (stream_receiver_accept_connection env_keytype q_basic).response_body =
      START_STREAMING_ERROR_NOT_PERMITTED ∧
    (stream_receiver_accept_connection env_keytype q_basic).takeover = false ∧
    (stream_receiver_accept_connection env_keytype q_basic).freed = true ∧
    (stream_receiver_accept_connection env_keytype q_basic).raw_sends = [] ∧
    (stream_receiver_accept_connection env_keytype q_basic).status =
      some STREAM_STATUS_INVALID_API_KEY ∧
    (stream_receiver_accept_connection env_keytype q_basic).log =
      some "rejecting streaming connection; API key provided is a machine UUID (did you mix them up?)" :=
  claim_C3 env_keytype q_basic
    (false, STREAM_STATUS_INVALID_API_KEY,
      "rejecting streaming connection; API key provided is a machine UUID (did you mix them up?)")
    (by decide) (by decide)

/-- Claim C4 witness: interval 10; an attempt 10 units after the
established timestamp proceeds and updates the timestamp to now; the next
attempt 3 units later is rejected with capacity-denial; an attempt 10
units after the accepted one proceeds again. -/
theorem claim_C4_witness :
    (stream_receiver_accept_connection env_rate_a q_basic =
      stream_receiver_dedup_and_dispatch env_rate_a
        (registry_default (parsed_rpt env_rate_a q_basic)) 110) ∧
    ((stream_receiver_accept_connection env_rate_b q_basic).code =
      HTTP_RESP_SERVICE_UNAVAILABLE ∧
     (stream_receiver_accept_connection env_rate_b q_basic).response_body =
      START_STREAMING_ERROR_BUSY_TRY_LATER ∧
     (stream_receiver_accept_connection env_rate_b q_basic).last_accepted_t = 110) ∧
    (stream_receiver_accept_connection env_rate_c q_basic =
      stream_receiver_dedup_and_dispatch env_rate_c
        (registry_default (parsed_rpt env_rate_c q_basic)) 120) := by
  have hA := claim_C4 env_rate_a q_basic (by decide) (by decide) (by decide) (by decide)
    (by decide)
  have hB := claim_C4 env_rate_b q_basic (by decide) (by decide) (by decide) (by decide)
    (by decide)
  have hC := claim_C4 env_rate_c q_basic (by decide) (by decide) (by decide) (by decide)
    (by decide)
  refine ⟨hA.2 (by decide), ⟨(hB.1 (by decide)).1, (hB.1 (by decide)).2.1,
    (hB.1 (by decide)).2.2.2.2.2⟩, hC.2 (by decide)⟩

/-- Claim C5 witness: the theorem applied at a receiverless host with a
short write (0 bytes of a 16-byte reply). -/
theorem claim_C5_witness :
    (stream_receiver_accept_connection env_short q_basic).takeover = true ∧
    (stream_receiver_accept_connection env_short q_basic).freed = true ∧
    (stream_receiver_accept_connection env_short q_basic).enqueued = false ∧
    (stream_receiver_accept_connection env_short q_basic).attachment = none ∧
    (stream_receiver_accept_connection env_short q_basic).raw_sends =
      [initial_response (registry_default (parsed_rpt env_short q_basic))] ∧
    (stream_receiver_accept_connection env_short q_basic).status =
      some STREAM_STATUS_CANT_REPLY ∧
    (stream_receiver_accept_connection env_short q_basic).code = HTTP_RESP_OK :=
  claim_C5 env_short q_basic (by decide) (by decide) (by decide) (by decide) rfl
    (by decide) (by decide) (by decide)

/-- Claim C8 witness: the theorem applied where the request's machine
identity equals the local node's identity. -/
theorem claim_C8_witness :
    (stream_receiver_accept_connection env_local q_basic).code = HTTP_RESP_OK ∧
    (stream_receiver_accept_connection env_local q_basic).takeover = true ∧
    (stream_receiver_accept_connection env_local q_basic).raw_sends =
      [START_STREAMING_ERROR_SAME_LOCALHOST] ∧
    (stream_receiver_accept_connection env_local q_basic).freed = true ∧
    (stream_receiver_accept_connection env_local q_basic).enqueued = false ∧
    (stream_receiver_accept_connection env_local q_basic).status =
      some STREAM_STATUS_LOCALHOST :=
  claim_C8 env_local q_basic (by decide) (by decide) (by decide)

/-- Claim C10 witness: rate 10, timestamp initially 0 at time 1000: the
first attempt is rejected and records timestamp 1000; the follow-up
attempt at time 1010 carrying that timestamp proceeds to admission. -/
theorem claim_C10_witness :
    (stream_receiver_accept_connection env_rate_zero q_basic).code =
      HTTP_RESP_SERVICE_UNAVAILABLE ∧
    (stream_receiver_accept_connection env_rate_zero q_basic).response_body =
      START_STREAMING_ERROR_BUSY_TRY_LATER ∧
    (stream_receiver_accept_connection env_rate_zero q_basic).last_accepted_t = 1000 ∧
    stream_receiver_accept_connection env_rate_zero2 q_basic =
      stream_receiver_dedup_and_dispatch env_rate_zero2
        (registry_default (parsed_rpt env_rate_zero2 q_basic)) 1010 := by
  have h := claim_C10 env_rate_zero env_rate_zero2 q_basic (by decide) (by decide) (by decide)
    (by decide) (by decide) (by decide) (by decide) (by decide) (by decide) (by decide)
    (by decide) (by decide)
  exact ⟨h.1, h.2.1, h.2.2.2.2.2.1, h.2.2.2.2.2.2⟩

end NetdataStreamReceiver
